import Mathlib

/-!
Verification of the route-planner engine (`route_planner_mcp`).

This file shallowly embeds the parts of the Python source needed by the
claims under scrutiny and proves theorems about them:

* `data_models.py`  — the data model (structures below),
* `selection.py`    — `select_route`,
* `risk.py`         — `slope_risk`, `exposure_risk`, `hydrology_risk`,
                      `evaluate_routes`, `RouteRisk.aggregate`,
* `pace.py`         — `naismith_adjusted_speed`, `estimate_travel_time`,
* `terrain.py`      — grid helpers and `assemble_route_steps`,
* `pathfinding.py`  — grid A*, road-network Dijkstra, candidate generation
                      (both the dispatching variant of the
                      `packages/route_planner_mcp` tree and the grid-only
                      variant imported by `server.py`),
* `server.py`       — the engine facade (`RoutePlannerEngine`).

Modelling conventions:

* Python floats are modelled as exact rationals (`ℚ`); `round(x, n)` is
  modelled as decimal round-half-to-even (`pyRound`), the idealisation of
  float rounding.
* `math.sqrt` and the degree-valued `atan` slope are irrational; they are
  passed in as a `FloatOps` record of rational-valued functions, so every
  definition stays executable.  Theorems hold for any such record (with
  explicitly stated hypotheses where a property of `sqrt` is needed), and
  witnesses evaluate a concrete stub record.
* Python dicts are association lists in insertion order (`lookupA`/`setA`);
  `dict.get` with a missing key is `none`.  Python set iteration order is
  implementation defined and is modelled as first-insertion order.
* `datetime.now` is a hidden input; it is threaded explicitly as a rational
  clock reading (minutes), and ISO timestamps kept only for provenance are
  opaque strings.
* Exceptions are `Except String`; in-place mutation is explicit state
  passing.
-/

/-- Dictionary lookup on an association list in insertion order:
Python `d.get(k)`. -/
def lookupA {κ α : Type} [BEq κ] (l : List (κ × α)) (k : κ) : Option α :=
  (l.find? (fun p => p.1 == k)).map (fun p => p.2)

/-- Dictionary assignment `d[k] = v`: update in place when the key exists
(keeping its position), otherwise append, as Python dicts do. -/
def setA {κ α : Type} [BEq κ] (l : List (κ × α)) (k : κ) (v : α) : List (κ × α) :=
  if (l.find? (fun p => p.1 == k)).isSome then
    l.map (fun p => if p.1 == k then (k, v) else p)
  else
    l ++ [(k, v)]

/-- Python `round` to the nearest integer, rounding halves to even. -/
def pyRoundInt (x : ℚ) : ℤ :=
  if x - (⌊x⌋ : ℚ) < 1 / 2 then ⌊x⌋
  else if x - (⌊x⌋ : ℚ) > 1 / 2 then ⌊x⌋ + 1
  else if ⌊x⌋ % 2 = 0 then ⌊x⌋ else ⌊x⌋ + 1

/-- Python `round(x, nd)` for `nd ≥ 0`, modelled as exact decimal
round-half-to-even. -/
def pyRound (nd : ℕ) (x : ℚ) : ℚ :=
  ((pyRoundInt (x * (10 : ℚ) ^ nd) : ℤ) : ℚ) / (10 : ℚ) ^ nd

/-- Left-pad a digit string with zeros up to length `n`. -/
def padZeros (s : String) (n : ℕ) : String :=
  if s.length < n then String.mk (List.replicate (n - s.length) '0') ++ s else s

/-- Python fixed-point formatting `f"{x:.nd f}"` (idealised to decimal
round-half-to-even; only used to build human-readable strings). -/
def fmtFixed (nd : ℕ) (x : ℚ) : String :=
  let scaled : ℤ := pyRoundInt (x * (10 : ℚ) ^ nd)
  let sign : String := if scaled < 0 then "-" else ""
  let a : ℕ := scaled.natAbs
  if nd = 0 then sign ++ toString a
  else sign ++ toString (a / 10 ^ nd) ++ "." ++ padZeros (toString (a % 10 ^ nd)) nd

/-- Python `max` over a list of rationals; Python raises on an empty list,
which the engine never produces — the `0` default is unreachable there. -/
def listMaxQ (xs : List ℚ) : ℚ :=
  xs.foldl max (xs.headD 0)

/-- Python `max(items, key=value)` over an association list, returning the
key of the first entry with maximal value (Python `max` keeps the first of
equals). `none` on an empty list (where Python raises). -/
def maxByVal (l : List (String × ℚ)) : Option String :=
  match l with
  | [] => none
  | p :: rest => some (rest.foldl (fun acc q => if q.2 > acc.2 then q else acc) p).1

/-- Keep the first occurrence of each element (Python `set` insertion
order as needed before sorting). -/
def dedupKeepFirst (l : List String) : List String :=
  l.foldl (fun acc s => if acc.contains s then acc else acc ++ [s]) []

/-- Python `sorted(set(codes))` for strings: duplicate-free and sorted.
`List.insertionSort` is a stable sort, so it computes the same list as
Python `sorted`. -/
def sortedDedupStr (codes : List String) : List String :=
  List.insertionSort (fun a b => a ≤ b) (dedupKeepFirst codes)

/-- Generic value of a heterogeneous Python dict (JSON-like). -/
inductive PyVal where
  | vStr : String → PyVal
  | vQ : ℚ → PyVal
  | vInt : ℤ → PyVal
  | vBool : Bool → PyVal
  | vNone : PyVal
  | vList : List PyVal → PyVal
  | vDict : List (String × PyVal) → PyVal

/-- Extract a list of strings from a `d.get(k)` result (the engine only
stores string lists under the keys this is used for). -/
def asStrList (v : Option PyVal) : List String :=
  match v with
  | some (PyVal.vList l) => l.filterMap (fun x => match x with
      | PyVal.vStr s => some s
      | _ => none)
  | _ => []

/-- Coordinate: `(lat, lon)` in decimal degrees (`data_models.Coordinate`). -/
abbrev Coordinate : Type := ℚ × ℚ

/-- Grid metadata (`data_models.GridMetadata`); `last_updated` is an opaque
ISO timestamp string, only ever passed through into provenance. -/
structure GridMetadata where
  origin : Coordinate
  cell_size_m : ℚ
  ttl_hours : ℤ
  last_updated : String
deriving DecidableEq, Repr

/-- Elevation grid (`data_models.DEMData`). -/
structure DEMData where
  grid : List (List ℚ)
  metadata : GridMetadata
deriving DecidableEq, Repr

/-- Number of rows (`DEMData.height`). -/
def DEMData.height (dem : DEMData) : ℕ := dem.grid.length

/-- Width of the first row, `0` when empty (`DEMData.width`). -/
def DEMData.width (dem : DEMData) : ℕ := (dem.grid.headD []).length

/-- Landcover class attributes (`data_models.LandcoverClass`). -/
structure LandcoverClass where
  name : String
  cost_factor : ℚ
  exposure : ℚ
  speed_modifier : ℚ
deriving DecidableEq, Repr

/-- Landcover grid (`data_models.LandcoverData`). -/
structure LandcoverData where
  grid : List (List String)
  classes : List (String × LandcoverClass)
  metadata : GridMetadata
deriving DecidableEq, Repr

/-- Shapely point as used by the source: `Point(x, y)` with `x = lon`,
`y = lat`. -/
structure Point where
  x : ℚ
  y : ℚ
deriving DecidableEq, Repr

/-- Obstacle polygon, modelled through its external shapely containment
test (`Polygon.contains`, strict interior containment). -/
structure Polygon where
  contains : Point → Bool

/-- Route step (`data_models.RouteStep`). -/
structure RouteStep where
  segment_id : ℤ
  coordinate : Coordinate
  slope : ℚ
  terrain : String
  cost : ℚ
  exposure : ℚ
  elevation : ℚ
  step_type : String
  km_marker : ℚ
  label : Option String := none
deriving DecidableEq, Repr

/-- Route candidate (`data_models.RouteCandidate`).  Heterogeneous dict
fields are `PyVal` association lists; `coverage` keeps its numeric values
typed because the selector takes a maximum over them. -/
structure RouteCandidate where
  id : String
  steps : List RouteStep
  distance_m : ℚ
  ascent_m : ℚ
  descent_m : ℚ
  estimated_cost : ℚ
  composite : Option ℚ
  constraints_used : List (String × PyVal)
  score_breakdown : List (String × ℚ)
  uncertainty : List (String × PyVal)
  coverage : List (String × ℚ)
  coverage_units : String
  estimated_cost_notes : String
  hydrology_check : List (String × PyVal)
  mobility : List (String × PyVal)
  provenance : List (String × PyVal) := []

/-- Route risk (`data_models.RouteRisk`). -/
structure RouteRisk where
  route_id : String
  slope_risk : ℚ
  exposure_risk : ℚ
  hydrology_risk : ℚ
  weights : List (String × ℚ)
  formula : String
  components : List (String × ℚ)
  hydrology_check : List (String × PyVal)

/-- Aggregate risk (`RouteRisk.aggregate`): fixed-weight sum of the three
components.  Python indexes the weights dict directly; the keys are always
present (`risk.RISK_WEIGHTS`), so the `0` default is unreachable. -/
def RouteRisk.aggregate (r : RouteRisk) : ℚ :=
  (lookupA r.weights "slope").getD 0 * r.slope_risk
    + (lookupA r.weights "exposure").getD 0 * r.exposure_risk
    + (lookupA r.weights "hydrology").getD 0 * r.hydrology_risk

/-- Pace estimate (`data_models.PaceEstimate`). -/
structure PaceEstimate where
  route_id : String
  travel_time_minutes : ℚ
  mode : String
  load_kg : ℚ
  base_speed_kmh : ℚ
  assumptions : List String
deriving DecidableEq, Repr

/-- Selection constraints (`data_models.RouteSelectionConstraints`);
`must_arrive_before` is a clock reading in minutes. -/
structure RouteSelectionConstraints where
  must_arrive_before : Option ℚ := none
  avoid_slope_degrees : Option ℚ := none
  prefer_low_risk : Bool := true
  max_distance_m : Option ℚ := none
deriving DecidableEq, Repr

/-- One entry of the `alternates` list built by `select_route`. -/
structure AlternateEntry where
  route_id : String
  score : ℚ
  rationale : String
  reason_codes : List String
deriving DecidableEq, Repr

/-- Selection result (`data_models.RouteSelectionResult`). -/
structure RouteSelectionResult where
  selected_route : RouteCandidate
  risk : RouteRisk
  pace : PaceEstimate
  rationale : String
  constraints : List (String × PyVal)
  alternates : List AlternateEntry
  score_definition : String
  tie_breaker : String
  policy : List (String × PyVal)

/-! ## Selection (`selection.py`) -/

/-- Maximum step slope of a route, `max(step.slope for step in route.steps)`
(Python raises on an empty step list; generated candidates always have
steps, and theorems carry that hypothesis). -/
def maxStepSlope (route : RouteCandidate) : ℚ :=
  listMaxQ (route.steps.map (fun s => s.slope))

/-- The three constraint filters of `select_route`, applied in source
order; returns the rejection message suffix, or `none` when the route
passes all filters.  `now` is the `datetime.now(timezone.utc)` reading, in
minutes on the same clock as `constraints.must_arrive_before`. -/
def rejectReason (constraints : RouteSelectionConstraints)
    (paces : String → PaceEstimate) (now : ℚ) (route : RouteCandidate) :
    Option String :=
  if (match constraints.avoid_slope_degrees with
      | some t => decide (maxStepSlope route > t)
      | none => false) then
    some "slope above threshold"
  else if (match constraints.max_distance_m with
      | some d => decide (route.distance_m > d)
      | none => false) then
    some "distance exceeds limit"
  else if (match constraints.must_arrive_before with
      | some deadline => decide (now + (paces route.id).travel_time_minutes > deadline)
      | none => false) then
    some "ETA past deadline"
  else
    none

/-- Score of a passing route (`selection.py` lines 47-49). -/
def routeScore (constraints : RouteSelectionConstraints)
    (risks : String → RouteRisk) (route : RouteCandidate) : ℚ :=
  if constraints.prefer_low_risk then
    route.estimated_cost * (1 + (risks route.id).aggregate)
  else
    route.estimated_cost

/-- One entry of the `evaluations` list of `select_route`. -/
structure SelEvaluation where
  route : RouteCandidate
  score : ℚ
  risk : RouteRisk
  pace : PaceEstimate
  rejected : Bool

/-- Loop state of `select_route`: `best` packages the Python pair
`(best_choice, best_score)`, where `none` is `(None, float("inf"))` —
the two variables are only ever updated together. -/
structure SelLoop where
  best : Option (RouteCandidate × ℚ)
  rationale_parts : List String
  evaluations : List SelEvaluation

/-- One iteration of the `for route in routes` loop of `select_route`.
The stored `rejected` flag is Python `score == float("inf")`, which is
always false for the finite scores that reach that line. -/
def selStep (constraints : RouteSelectionConstraints)
    (risks : String → RouteRisk) (paces : String → PaceEstimate) (now : ℚ)
    (st : SelLoop) (route : RouteCandidate) : SelLoop :=
  match rejectReason constraints paces now route with
  | some msg =>
      { st with rationale_parts := st.rationale_parts ++ [route.id ++ " rejected: " ++ msg] }
  | none =>
      let score := routeScore constraints risks route
      let better : Bool := match st.best with
        | none => true
        | some (_, bs) => decide (score < bs)
      let st1 := if better then { st with best := some (route, score) } else st
      { st1 with
          evaluations := st1.evaluations ++
            [{ route := route, score := score, risk := risks route.id,
               pace := paces route.id, rejected := false }] }

/-- The alternates entry built for one non-selected evaluation
(`selection.py` lines 87-150). -/
def altEntry (best_risk : RouteRisk) (best_pace : PaceEstimate)
    (best_distance best_cost : ℚ) (ev : SelEvaluation) : AlternateEntry :=
  let route := ev.route
  let alt_risk := ev.risk
  let alt_pace := ev.pace
  let alt_cost := route.estimated_cost
  let risk_diff := alt_risk.aggregate - best_risk.aggregate
  let riskPart : String × List String :=
    if |risk_diff| < 1 / 100 then
      ("similar aggregate risk", ["tie_risk"])
    else if risk_diff > 0 then
      ("higher aggregate risk (+" ++ fmtFixed 2 risk_diff ++ ")", ["higher_risk"])
    else
      ("lower aggregate risk (" ++ fmtFixed 2 alt_risk.aggregate ++ " vs "
        ++ fmtFixed 2 best_risk.aggregate ++ ")", ["lower_risk"])
  let etaPart : List String × List String :=
    if alt_pace.travel_time_minutes > best_pace.travel_time_minutes then
      (["slower ETA (+"
          ++ fmtFixed 1 (alt_pace.travel_time_minutes - best_pace.travel_time_minutes)
          ++ " min)"], ["slower_eta"])
    else if alt_pace.travel_time_minutes < best_pace.travel_time_minutes then
      (["faster ETA (-"
          ++ fmtFixed 1 (best_pace.travel_time_minutes - alt_pace.travel_time_minutes)
          ++ " min)"], ["faster_eta"])
    else ([], [])
  let distPart : List String × List String :=
    if route.distance_m > best_distance then
      (["longer distance"], ["longer_distance"])
    else if route.distance_m < best_distance then
      (["shorter distance"], ["shorter_distance"])
    else ([], [])
  let prefs := asStrList (lookupA route.constraints_used "prefer")
  let prefPart : List String × List String :=
    if prefs ≠ [] then
      (["prefers " ++ String.intercalate ", " prefs],
        prefs.filterMap (fun p =>
          if p = "trail" then some "trail_pref"
          else if p = "mixed" then some "mixed_profile"
          else if p = "cover" then some "cover_pref"
          else none))
    else ([], [])
  let covPart : List String × List String :=
    if route.coverage ≠ [] then
      match maxByVal route.coverage with
      | some dominant =>
          (["dominant terrain " ++ dominant], ["dominant_" ++ dominant])
      | none => ([], [])
    else ([], [])
  let avoids := asStrList (lookupA route.constraints_used "avoid")
  let openPart : List String :=
    if avoids ≠ [] ∧ route.coverage ≠ [] then
      if "open" ∈ avoids ∧ (lookupA route.coverage "open").getD 0 > 0 then
        ["requires_open_crossing"]
      else []
    else []
  let costPart : List String :=
    if alt_cost > best_cost then ["higher_cost"]
    else if alt_cost < best_cost then ["lower_cost"]
    else []
  let reason_parts : List String :=
    [riskPart.1] ++ etaPart.1 ++ distPart.1 ++ prefPart.1 ++ covPart.1
  let reason_codes : List String :=
    riskPart.2 ++ etaPart.2 ++ distPart.2 ++ prefPart.2 ++ covPart.2
      ++ openPart ++ costPart
  { route_id := route.id
    score := pyRound 3 ev.score
    rationale := String.intercalate ", " reason_parts
    reason_codes := sortedDedupStr reason_codes }

/-- Result assembly of `select_route` after a best choice exists
(`selection.py` lines 68-191). -/
def buildSelectionResult (constraints : RouteSelectionConstraints)
    (risks : String → RouteRisk) (paces : String → PaceEstimate)
    (st : SelLoop) (best : RouteCandidate) : RouteSelectionResult :=
  let risk := risks best.id
  let pace := paces best.id
  let rationale_parts := st.rationale_parts ++
    [best.id ++ " selected with aggregate risk " ++ fmtFixed 2 risk.aggregate]
  let rationale := String.intercalate "; " rationale_parts
  let cs0 : List (String × Option PyVal) :=
    [("nlt", (constraints.must_arrive_before).map PyVal.vQ),
     ("max_slope_deg", (constraints.avoid_slope_degrees).map PyVal.vQ),
     ("max_distance_m", (constraints.max_distance_m).map PyVal.vQ),
     ("preferred", some (PyVal.vStr
        (if constraints.prefer_low_risk then "lowest_risk" else "balanced")))]
  let constraints_summary : List (String × PyVal) :=
    cs0.filterMap (fun p => p.2.map (fun v => (p.1, v)))
  let best_distance := best.distance_m
  let best_risk := risk
  let best_score :=
    ((st.evaluations.find? (fun ev => ev.route.id == best.id)).map
      (fun ev => ev.score)).getD 0
  let best_cost := best.estimated_cost
  let best_composite := best.composite.getD (pyRound 3 best_score)
  let alternates0 :=
    (st.evaluations.filter (fun ev => ev.route.id != best.id)).map
      (altEntry best_risk pace best_distance best_cost)
  let alternates := List.insertionSort (fun a b => a.score ≤ b.score) alternates0
  let sorted_evals := List.insertionSort (fun a b => a.score ≤ b.score) st.evaluations
  let tie_breaker :=
    match sorted_evals with
    | _ :: runner :: _ =>
        let base := "lowest composite score (" ++ fmtFixed 3 best_composite
          ++ " vs " ++ fmtFixed 3 runner.score ++ ") and lower estimated_cost ("
          ++ fmtFixed 3 best_cost ++ " vs " ++ fmtFixed 3 runner.route.estimated_cost ++ ")"
        (if best.coverage ≠ [] then
          match maxByVal best.coverage with
          | some dominant => base ++ "; selected profile emphasizes " ++ dominant
          | none => base
        else base)
    | _ => "lowest composite score"
  let score_definition :=
    "composite score = estimated_cost × (1 + aggregate_risk) when prefer_low_risk else estimated_cost"
  let policy : List (String × PyVal) :=
    [("id", PyVal.vStr (if constraints.prefer_low_risk then "prefer_low_risk_v1.1" else "balanced_v1.1")),
     ("composite", PyVal.vStr (if constraints.prefer_low_risk then
        "estimated_cost * (1 + aggregate_risk)" else "estimated_cost")),
     ("tiebreakers", PyVal.vList
        [PyVal.vStr "lowest composite", PyVal.vStr "lowest estimated_cost",
         PyVal.vStr "greater trail_km"])]
  { selected_route := best
    risk := risk
    pace := pace
    rationale := rationale
    constraints := constraints_summary
    alternates := alternates
    score_definition := score_definition
    tie_breaker := tie_breaker
    policy := policy }

/-- Embedding of `selection.select_route`.  `risks` and `paces` are the
dict lookups `risks[route.id]` / `paces[route.id]` (total maps: the engine
always passes dicts covering every route id). -/
def select_route (routes : List RouteCandidate)
    (risks : String → RouteRisk) (paces : String → PaceEstimate)
    (constraints : RouteSelectionConstraints) (now : ℚ) :
    Except String RouteSelectionResult :=
  let st := routes.foldl (selStep constraints risks paces now)
    { best := none, rationale_parts := [], evaluations := [] }
  match st.best with
  | none => Except.error "No route satisfies the provided constraints."
  | some (best, _) => Except.ok (buildSelectionResult constraints risks paces st best)

/-! ## Risk scoring (`risk.py`) -/

/-- Fixed risk weights (`risk.RISK_WEIGHTS`). -/
def RISK_WEIGHTS : List (String × ℚ) :=
  [("slope", 45 / 100), ("exposure", 35 / 100), ("hydrology", 2 / 10)]

/-- Formula tag (`risk.RISK_FORMULA`). -/
def RISK_FORMULA : String := "sum(w[i] * component[i])"

/-- Clamp `value / upper` into `[0, 1]` (`risk._normalized`). -/
def riskNormalized (value upper : ℚ) : ℚ :=
  if upper = 0 then 0 else max 0 (min 1 (value / upper))

/-- Segment steps of a step list (the comprehension shared by all three
risk components). -/
def segmentSteps (steps : List RouteStep) : List RouteStep :=
  steps.filter (fun s => s.step_type == "segment")

/-- Substring test `needle in hay` (Python `in` on strings).  For a
nonempty needle, `splitOn` returns more than one piece exactly when the
needle occurs. -/
def strContains (hay needle : String) : Bool :=
  (hay.splitOn needle).length != 1

/-- Slope risk component (`risk.slope_risk`). -/
def slope_risk (steps : List RouteStep) : ℚ :=
  let seg := segmentSteps steps
  if seg.isEmpty then 0
  else
    let worst := listMaxQ (seg.map (fun s => s.slope))
    let avg := (seg.map (fun s => s.slope)).sum / (seg.length : ℚ)
    let score := 6 / 10 * riskNormalized avg 15 + 4 / 10 * riskNormalized worst 25
    pyRound 3 (min score 1)

/-- Exposure risk component (`risk.exposure_risk`). -/
def exposure_risk (steps : List RouteStep) : ℚ :=
  let seg := segmentSteps steps
  if seg.isEmpty then 0
  else
    let avg_exposure := (seg.map (fun s => s.exposure)).sum / (seg.length : ℚ)
    pyRound 3 (riskNormalized avg_exposure 1)

/-- Hydrology risk component (`risk.hydrology_risk`). -/
def hydrology_risk (steps : List RouteStep) : ℚ :=
  let seg := segmentSteps steps
  if seg.isEmpty then 0
  else
    let water_penalty := (seg.filter (fun s => strContains s.terrain.toLower "water")).length
    let bog_penalty := (seg.filter (fun s => strContains s.terrain.toLower "wetland")).length
    let total := seg.length
    let score := riskNormalized ((water_penalty : ℚ) * 2 + (bog_penalty : ℚ)) (max (total : ℚ) 1)
    pyRound 3 score

/-- The `RouteRisk` record built for one route inside
`risk.evaluate_routes`. -/
def riskRecordFor (route : RouteCandidate) : RouteRisk :=
  let slope_component := slope_risk route.steps
  let exposure_component := exposure_risk route.steps
  let hydrology_component := hydrology_risk route.steps
  { route_id := route.id
    slope_risk := slope_component
    exposure_risk := exposure_component
    hydrology_risk := hydrology_component
    weights := RISK_WEIGHTS
    formula := RISK_FORMULA
    components :=
      [("slope", slope_component), ("exposure", exposure_component),
       ("hydrology", hydrology_component)]
    hydrology_check := route.hydrology_check }

/-- Embedding of `risk.evaluate_routes`: dict from route id to risk, in
insertion order. -/
def evaluate_routes (routes : List RouteCandidate) : List (String × RouteRisk) :=
  routes.foldl (fun risk_map route => setA risk_map route.id (riskRecordFor route)) []

/-! ## Pace estimation (`pace.py`) -/

/-- Base speed table lookup `NAISMITH_BASE_SPEED_KMH.get(mode, 5.0)`. -/
def naismithBaseSpeed (mode : String) : ℚ :=
  if mode = "foot" then 5 else if mode = "wheeled" then 8 else 5

/-- Float repr of the base speed, for the assumption strings. -/
def naismithBaseSpeedStr (mode : String) : String :=
  if mode = "foot" then "5.0" else if mode = "wheeled" then "8.0" else "5.0"

/-- Embedding of `pace.naismith_adjusted_speed`.  The slope penalty maxes
over all steps (`max(step.slope for step in route.steps)`, which raises in
Python on an empty step list — unreachable for generated candidates). -/
def naismith_adjusted_speed (route : RouteCandidate) (mode : String) (load_kg : ℚ) : ℚ :=
  let base_speed := naismithBaseSpeed mode
  let ascent_penalty := route.ascent_m / 600
  let descent_penalty := max 0 ((route.descent_m - 300) / 800)
  let load_penalty := load_kg / 20 * (1 / 2)
  let slope_penalty := maxStepSlope route / 40
  let adjusted_speed := base_speed - ascent_penalty - descent_penalty - load_penalty - slope_penalty
  max adjusted_speed (3 / 2)

/-- Embedding of `pace.estimate_travel_time`.  `load_kg` is rendered in
the assumption string with one decimal (Python prints the float value). -/
def estimate_travel_time (route : RouteCandidate) (mode : String) (load_kg : ℚ) : PaceEstimate :=
  let speed_kmh := naismith_adjusted_speed route mode load_kg
  let travel_time_hours := (route.distance_m / 1000) / speed_kmh
  let travel_time_minutes := travel_time_hours * 60
  let assumptions : List String :=
    ["Naismith base " ++ naismithBaseSpeedStr mode ++ " km/h",
     "+30% time per deg >10\xc2\xb0 equivalent",
     "+10% time per 10 kg load (applied to " ++ fmtFixed 1 load_kg ++ " kg)",
     "Rest ratio 10 min per 60 min travel"]
  { route_id := route.id
    travel_time_minutes := pyRound 1 travel_time_minutes
    mode := mode
    load_kg := load_kg
    base_speed_kmh := pyRound 2 speed_kmh
    assumptions := assumptions }

/-! ## Arithmetic lemmas about Python rounding -/

theorem pyRoundInt_nonneg {x : ℚ} (hx : 0 ≤ x) : 0 ≤ pyRoundInt x := by
  have hf : (0 : ℤ) ≤ ⌊x⌋ := Int.floor_nonneg.mpr hx
  unfold pyRoundInt
  split_ifs <;> omega

theorem pyRoundInt_le {x : ℚ} {n : ℤ} (h : x ≤ (n : ℚ)) : pyRoundInt x ≤ n := by
  have hf : ⌊x⌋ ≤ n := by
    have := Int.floor_le_floor h
    simpa using this
  unfold pyRoundInt
  split_ifs with h1 h2 h3
  · exact hf
  · rcases lt_or_eq_of_le hf with hlt | heq
    · omega
    · exfalso
      subst heq
      have : x - (⌊x⌋ : ℚ) ≤ 0 := by
        have : x ≤ (⌊x⌋ : ℚ) := by exact_mod_cast h
        linarith
      linarith
  · exact hf
  · rcases lt_or_eq_of_le hf with hlt | heq
    · omega
    · exfalso
      subst heq
      have : x - (⌊x⌋ : ℚ) ≤ 0 := by
        have : x ≤ (⌊x⌋ : ℚ) := by exact_mod_cast h
        linarith
      linarith

theorem pyRound_nonneg (nd : ℕ) {x : ℚ} (hx : 0 ≤ x) : 0 ≤ pyRound nd x := by
  unfold pyRound
  have h1 : (0 : ℚ) ≤ ((pyRoundInt (x * (10 : ℚ) ^ nd) : ℤ) : ℚ) := by
    exact_mod_cast pyRoundInt_nonneg (mul_nonneg hx (by positivity))
  positivity

theorem pyRound_le_one (nd : ℕ) {x : ℚ} (hx : x ≤ 1) : pyRound nd x ≤ 1 := by
  unfold pyRound
  have hpow : (0 : ℚ) < (10 : ℚ) ^ nd := by positivity
  have hcast : (((10 : ℤ) ^ nd : ℤ) : ℚ) = (10 : ℚ) ^ nd := by push_cast; ring
  have h1 : pyRoundInt (x * (10 : ℚ) ^ nd) ≤ (10 : ℤ) ^ nd :=
    pyRoundInt_le (by rw [hcast]; nlinarith)
  rw [div_le_one hpow]
  calc ((pyRoundInt (x * (10 : ℚ) ^ nd) : ℤ) : ℚ)
      ≤ (((10 : ℤ) ^ nd : ℤ) : ℚ) := by exact_mod_cast h1
    _ = (10 : ℚ) ^ nd := hcast

theorem pyRound_zero (nd : ℕ) : pyRound nd 0 = 0 := by
  unfold pyRound pyRoundInt
  norm_num

/-! ## Machinery for reasoning about the `select_route` loop -/

/-- A route passes all three constraint filters. -/
def passesF (constraints : RouteSelectionConstraints)
    (paces : String → PaceEstimate) (now : ℚ) (r : RouteCandidate) : Bool :=
  (rejectReason constraints paces now r).isNone

/-- The evaluation record appended for a filter-passing route. -/
def evalOf (constraints : RouteSelectionConstraints) (risks : String → RouteRisk)
    (paces : String → PaceEstimate) (r : RouteCandidate) : SelEvaluation :=
  { route := r, score := routeScore constraints risks r, risk := risks r.id,
    pace := paces r.id, rejected := false }

/-- The strict-improvement best update performed by the loop on a passing
route. -/
def updateBest (score : RouteCandidate → ℚ) (b : Option (RouteCandidate × ℚ))
    (r : RouteCandidate) : Option (RouteCandidate × ℚ) :=
  match b with
  | none => some (r, score r)
  | some (br, bs) => if score r < bs then some (r, score r) else some (br, bs)

theorem selStep_best_evals (constraints : RouteSelectionConstraints)
    (risks : String → RouteRisk) (paces : String → PaceEstimate) (now : ℚ) :
    ∀ (rs : List RouteCandidate) (st : SelLoop),
      (rs.foldl (selStep constraints risks paces now) st).best
          = (rs.filter (passesF constraints paces now)).foldl
              (updateBest (routeScore constraints risks)) st.best
        ∧ (rs.foldl (selStep constraints risks paces now) st).evaluations
          = st.evaluations ++ (rs.filter (passesF constraints paces now)).map
              (evalOf constraints risks paces) := by
  intro rs
  induction rs with
  | nil => intro st; simp
  | cons r rs ih =>
      intro st
      rcases hrej : rejectReason constraints paces now r with _ | msg
      · have hpass : passesF constraints paces now r = true := by
          simp [passesF, hrej]
        have hstep : selStep constraints risks paces now st r =
            { best := updateBest (routeScore constraints risks) st.best r,
              rationale_parts := st.rationale_parts,
              evaluations := st.evaluations ++ [evalOf constraints risks paces r] } := by
          rcases hb : st.best with _ | p
          · simp [selStep, hrej, updateBest, hb, evalOf]
          · rcases p with ⟨br, bs⟩
            by_cases hlt : routeScore constraints risks r < bs
            · simp [selStep, hrej, updateBest, hb, hlt, evalOf]
            · simp [selStep, hrej, updateBest, hb, hlt, evalOf]
        have ih' := ih ({ best := updateBest (routeScore constraints risks) st.best r,
                          rationale_parts := st.rationale_parts,
                          evaluations := st.evaluations ++ [evalOf constraints risks paces r] } : SelLoop)
        constructor
        · rw [List.foldl_cons, hstep, ih'.1]
          simp [List.filter_cons, hpass]
        · rw [List.foldl_cons, hstep, ih'.2]
          simp [List.filter_cons, hpass]
      · have hpass : passesF constraints paces now r = false := by
          simp [passesF, hrej]
        have hstep : selStep constraints risks paces now st r =
            { best := st.best,
              rationale_parts := st.rationale_parts ++ [r.id ++ " rejected: " ++ msg],
              evaluations := st.evaluations } := by
          simp [selStep, hrej]
        have ih' := ih ({ best := st.best,
                          rationale_parts := st.rationale_parts ++ [r.id ++ " rejected: " ++ msg],
                          evaluations := st.evaluations } : SelLoop)
        constructor
        · rw [List.foldl_cons, hstep, ih'.1]
          simp [List.filter_cons, hpass]
        · rw [List.foldl_cons, hstep, ih'.2]
          simp [List.filter_cons, hpass]

theorem updateBest_ne_none (score : RouteCandidate → ℚ)
    (b : Option (RouteCandidate × ℚ)) (r : RouteCandidate) :
    updateBest score b r ≠ none := by
  rcases b with _ | ⟨br, bs⟩
  · simp [updateBest]
  · by_cases h : score r < bs <;> simp [updateBest, h]

theorem foldl_updateBest_ne_none (score : RouteCandidate → ℚ) :
    ∀ (l : List RouteCandidate) (b : Option (RouteCandidate × ℚ)),
      l ≠ [] ∨ b ≠ none → l.foldl (updateBest score) b ≠ none := by
  intro l
  induction l with
  | nil =>
      intro b h
      rcases h with h | h
      · exact absurd rfl h
      · simpa using h
  | cons r rs ih =>
      intro b _
      simp only [List.foldl_cons]
      exact ih (updateBest score b r) (Or.inr (updateBest_ne_none score b r))

theorem foldl_updateBest_min (score : RouteCandidate → ℚ) :
    ∀ (l : List RouteCandidate) (b : Option (RouteCandidate × ℚ))
      (p : RouteCandidate × ℚ),
      l.foldl (updateBest score) b = some p →
      (b = some p ∨ (p.1 ∈ l ∧ p.2 = score p.1))
        ∧ (∀ q : RouteCandidate × ℚ, b = some q → p.2 ≤ q.2)
        ∧ ∀ r ∈ l, p.2 ≤ score r := by
  intro l
  induction l with
  | nil =>
      intro b p h
      simp only [List.foldl_nil] at h
      exact ⟨Or.inl h, fun q hq => by rw [h] at hq; cases hq; exact le_refl _,
        by intro r hr; cases hr⟩
  | cons r rs ih =>
      intro b p h
      simp only [List.foldl_cons] at h
      rcases ih (updateBest score b r) p h with ⟨hmem, hle, hall⟩
      have hcase : updateBest score b r = some (r, score r) ∨
          (∃ q : RouteCandidate × ℚ, b = some q ∧ updateBest score b r = some q) := by
        rcases hb : b with _ | ⟨br, bs⟩
        · exact Or.inl (by simp [updateBest])
        · by_cases hlt : score r < bs
          · exact Or.inl (by simp [updateBest, hlt])
          · exact Or.inr ⟨(br, bs), rfl, by simp [updateBest, hlt]⟩
      have hult_r : ∀ u : RouteCandidate × ℚ,
          updateBest score b r = some u → u.2 ≤ score r := by
        intro u hu
        rcases hb : b with _ | ⟨br, bs⟩
        · rw [hb] at hu
          simp only [updateBest] at hu
          cases hu
          exact le_refl _
        · rw [hb] at hu
          simp only [updateBest] at hu
          by_cases hlt : score r < bs
          · rw [if_pos hlt] at hu; cases hu; exact le_refl _
          · rw [if_neg hlt] at hu; cases hu; exact le_of_not_gt hlt
      have hult_b : ∀ (q u : RouteCandidate × ℚ), b = some q →
          updateBest score b r = some u → u.2 ≤ q.2 := by
        intro q u hq hu
        rcases q with ⟨br, bs⟩
        rw [hq] at hu
        simp only [updateBest] at hu
        by_cases hlt : score r < bs
        · rw [if_pos hlt] at hu; cases hu; exact le_of_lt hlt
        · rw [if_neg hlt] at hu; cases hu; exact le_refl _
      refine ⟨?_, ?_, ?_⟩
      · rcases hmem with hup | ⟨hin, hsc⟩
        · rcases hcase with hnew | ⟨q, hbq, hkeep⟩
          · rw [hnew] at hup
            cases hup
            exact Or.inr ⟨List.mem_cons_self _ _, rfl⟩
          · rw [hkeep] at hup
            cases hup
            exact Or.inl hbq
        · exact Or.inr ⟨List.mem_cons_of_mem _ hin, hsc⟩
      · intro q hq
        have hsome : ∃ u : RouteCandidate × ℚ, updateBest score b r = some u := by
          rcases hu : updateBest score b r with _ | u
          · exact absurd hu (updateBest_ne_none score b r)
          · exact ⟨u, rfl⟩
        rcases hsome with ⟨u, hu⟩
        calc p.2 ≤ u.2 := hle u hu
          _ ≤ q.2 := hult_b q u hq hu
      · intro x hx
        rcases List.mem_cons.mp hx with hx | hx
        · subst hx
          have hsome : ∃ u : RouteCandidate × ℚ, updateBest score b x = some u := by
            rcases hu : updateBest score b x with _ | u
            · exact absurd hu (updateBest_ne_none score b x)
            · exact ⟨u, rfl⟩
          rcases hsome with ⟨u, hu⟩
          calc p.2 ≤ u.2 := hle u hu
            _ ≤ score x := hult_r u hu
        · exact hall x hx

/-- No-argument `RouteSelectionConstraints()` (all defaults). -/
def noConstraints : RouteSelectionConstraints := {}

/-- C1: for every call to `select_route` with routes plus a risk and a pace
for each route id: if at least one route passes all constraint filters
(max step slope not above `avoid_slope_degrees` when set, `distance_m` not
above `max_distance_m` when set, `now + travel_time_minutes` not past
`must_arrive_before` when set), then the returned `selected_route` passes
all filters and has minimal score among the passing routes, where
score = `estimated_cost * (1 + aggregate risk)` when `prefer_low_risk` and
`estimated_cost` otherwise; if no route passes, `select_route` fails with
an explanatory error.  (The step-list hypothesis scopes the theorem to the
inputs on which the embedding is faithful: Python `max` raises on an empty
step sequence.) -/
theorem select_route_filters_and_minimizes
    (routes : List RouteCandidate) (risks : String → RouteRisk)
    (paces : String → PaceEstimate) (constraints : RouteSelectionConstraints)
    (now : ℚ) (hsteps : ∀ r ∈ routes, r.steps ≠ []) :
    (routes.filter (passesF constraints paces now) = [] →
      select_route routes risks paces constraints now =
        Except.error "No route satisfies the provided constraints.") ∧
    (routes.filter (passesF constraints paces now) ≠ [] →
      ∃ res, select_route routes risks paces constraints now = Except.ok res ∧
        rejectReason constraints paces now res.selected_route = none ∧
        res.selected_route ∈ routes ∧
        ∀ r ∈ routes, rejectReason constraints paces now r = none →
          routeScore constraints risks res.selected_route ≤
            routeScore constraints risks r) := by
  have hspec := selStep_best_evals constraints risks paces now routes
    { best := none, rationale_parts := [], evaluations := [] }
  constructor
  · intro hempty
    have hbest : (routes.foldl (selStep constraints risks paces now)
        { best := none, rationale_parts := [], evaluations := [] }).best = none := by
      rw [hspec.1, hempty]
      rfl
    unfold select_route
    simp only [hbest]
  · intro hne
    have hbest_ne : (routes.foldl (selStep constraints risks paces now)
        { best := none, rationale_parts := [], evaluations := [] }).best ≠ none := by
      rw [hspec.1]
      exact foldl_updateBest_ne_none _ _ _ (Or.inl hne)
    rcases hb : (routes.foldl (selStep constraints risks paces now)
        { best := none, rationale_parts := [], evaluations := [] }).best with _ | p
    · exact absurd hb hbest_ne
    · rcases p with ⟨best, s⟩
      have hrun : (routes.filter (passesF constraints paces now)).foldl
          (updateBest (routeScore constraints risks)) none = some (best, s) := by
        have h1 := hspec.1
        rw [hb] at h1
        exact h1.symm
      rcases foldl_updateBest_min _ _ _ _ hrun with ⟨hmem, _, hmin⟩
      rcases hmem with h | ⟨hin, hsc⟩
      · cases h
      · have hin' := List.mem_filter.mp hin
        refine ⟨buildSelectionResult constraints risks paces
          (routes.foldl (selStep constraints risks paces now)
            { best := none, rationale_parts := [], evaluations := [] }) best,
          ?_, ?_, ?_, ?_⟩
        · unfold select_route
          simp only [hb]
        · exact Option.isNone_iff_eq_none.mp hin'.2
        · exact hin'.1
        · intro r hr hrn
          have hmem2 : r ∈ routes.filter (passesF constraints paces now) :=
            List.mem_filter.mpr ⟨hr, by simp [passesF, hrn]⟩
          have h3 : s ≤ routeScore constraints risks r := hmin r hmem2
          have h4 : s = routeScore constraints risks best := hsc
          have hsel : (buildSelectionResult constraints risks paces
              (routes.foldl (selStep constraints risks paces now)
                { best := none, rationale_parts := [], evaluations := [] })
              best).selected_route = best := rfl
          rw [hsel, ← h4]
          exact h3

/-! ## Properties of `sortedDedupStr` -/

theorem dedupKeepFirst_nodup (l : List String) : (dedupKeepFirst l).Nodup := by
  suffices h : ∀ (l : List String) (acc : List String), acc.Nodup →
      (l.foldl (fun acc s => if acc.contains s then acc else acc ++ [s]) acc).Nodup by
    exact h l [] List.nodup_nil
  intro l
  induction l with
  | nil => intro acc hacc; simpa using hacc
  | cons s rest ih =>
      intro acc hacc
      simp only [List.foldl_cons]
      by_cases hc : acc.contains s
      · rw [if_pos hc]
        exact ih acc hacc
      · rw [if_neg hc]
        refine ih _ ?_
        have hs : s ∉ acc := by
          intro hmem
          exact hc (List.elem_iff.mpr hmem)
        simp [List.nodup_append, hacc, hs]

theorem sortedDedupStr_nodup (codes : List String) : (sortedDedupStr codes).Nodup := by
  unfold sortedDedupStr
  exact ((List.perm_insertionSort _ _).nodup_iff).mpr (dedupKeepFirst_nodup codes)

theorem sortedDedupStr_sorted (codes : List String) :
    List.Sorted (fun a b : String => a ≤ b) (sortedDedupStr codes) := by
  unfold sortedDedupStr
  haveI h1 : IsTotal String (fun a b : String => a ≤ b) := ⟨fun a b => le_total a b⟩
  haveI h2 : IsTrans String (fun a b : String => a ≤ b) := ⟨fun _ _ _ => le_trans⟩
  exact List.sorted_insertionSort _ _

/-- C3 (amended): on a successful selection, every filter-passing route
other than the selected one appears in `alternates` with a sorted,
duplicate-free list of reason codes, while routes rejected by the
constraint filters do not appear in `alternates` (they are reported only
in the rationale string). -/
theorem select_route_alternates_cover
    (routes : List RouteCandidate) (risks : String → RouteRisk)
    (paces : String → PaceEstimate) (constraints : RouteSelectionConstraints)
    (now : ℚ) (hids : (routes.map (fun r => r.id)).Nodup)
    (res : RouteSelectionResult)
    (hok : select_route routes risks paces constraints now = Except.ok res) :
    (∀ r ∈ routes, rejectReason constraints paces now r = none →
        r.id ≠ res.selected_route.id →
        ∃ e ∈ res.alternates, e.route_id = r.id) ∧
    (∀ e ∈ res.alternates, e.reason_codes.Nodup ∧
        List.Sorted (fun a b : String => a ≤ b) e.reason_codes) ∧
    (∀ r ∈ routes, rejectReason constraints paces now r ≠ none →
        ∀ e ∈ res.alternates, e.route_id ≠ r.id) := by
  have hspec := selStep_best_evals constraints risks paces now routes
    { best := none, rationale_parts := [], evaluations := [] }
  rcases hb : (routes.foldl (selStep constraints risks paces now)
      { best := none, rationale_parts := [], evaluations := [] }).best with _ | p
  · unfold select_route at hok
    simp only [hb] at hok
    cases hok
  · rcases p with ⟨best, s⟩
    unfold select_route at hok
    simp only [hb] at hok
    injection hok with hok'
    subst hok'
    have hsel : (buildSelectionResult constraints risks paces
        (routes.foldl (selStep constraints risks paces now)
          { best := none, rationale_parts := [], evaluations := [] }) best).selected_route
        = best := rfl
    have halt : (buildSelectionResult constraints risks paces
        (routes.foldl (selStep constraints risks paces now)
          { best := none, rationale_parts := [], evaluations := [] }) best).alternates
        = List.insertionSort (fun a b => a.score ≤ b.score)
            (((routes.foldl (selStep constraints risks paces now)
                { best := none, rationale_parts := [], evaluations := [] }).evaluations.filter
                  (fun ev => ev.route.id != best.id)).map
              (altEntry (risks best.id) (paces best.id) best.distance_m
                best.estimated_cost)) := rfl
    have heval : (routes.foldl (selStep constraints risks paces now)
        { best := none, rationale_parts := [], evaluations := [] }).evaluations
        = (routes.filter (passesF constraints paces now)).map
            (evalOf constraints risks paces) := by
      simpa using hspec.2
    refine ⟨?_, ?_, ?_⟩
    · intro r hr hrn hne
      rw [hsel] at hne
      have hpass : passesF constraints paces now r = true := by simp [passesF, hrn]
      have hin : evalOf constraints risks paces r ∈
          (routes.foldl (selStep constraints risks paces now)
            { best := none, rationale_parts := [], evaluations := [] }).evaluations := by
        rw [heval]
        exact List.mem_map_of_mem _ (List.mem_filter.mpr ⟨hr, hpass⟩)
      have hfil : evalOf constraints risks paces r ∈
          ((routes.foldl (selStep constraints risks paces now)
            { best := none, rationale_parts := [], evaluations := [] }).evaluations.filter
              (fun ev => ev.route.id != best.id)) := by
        refine List.mem_filter.mpr ⟨hin, ?_⟩
        simpa [evalOf] using bne_iff_ne.mpr hne
      refine ⟨altEntry (risks best.id) (paces best.id) best.distance_m
        best.estimated_cost (evalOf constraints risks paces r), ?_, rfl⟩
      rw [halt]
      exact (List.mem_insertionSort _).mpr (List.mem_map_of_mem _ hfil)
    · intro e he
      rw [halt] at he
      obtain ⟨ev, _, rfl⟩ := List.mem_map.mp ((List.mem_insertionSort _).mp he)
      exact ⟨sortedDedupStr_nodup _, sortedDedupStr_sorted _⟩
    · intro r hr hrn e he
      rw [halt] at he
      obtain ⟨ev, hev, rfl⟩ := List.mem_map.mp ((List.mem_insertionSort _).mp he)
      have hev2 : ev ∈ (routes.foldl (selStep constraints risks paces now)
          { best := none, rationale_parts := [], evaluations := [] }).evaluations :=
        (List.mem_filter.mp hev).1
      rw [heval] at hev2
      obtain ⟨r', hr', rfl⟩ := List.mem_map.mp hev2
      intro heq
      have hr'mem := List.mem_filter.mp hr'
      have heq' : r'.id = r.id := heq
      have hrr : r' = r := List.inj_on_of_nodup_map hids hr'mem.1 hr heq'
      subst hrr
      have : rejectReason constraints paces now r' = none := by
        simpa [passesF] using hr'mem.2
      exact hrn this

/-! ## Concrete fixtures for witnesses and counterexamples -/

/-- A plain segment step on open terrain. -/
def stepOpen : RouteStep :=
  { segment_id := 1, coordinate := (0, 0), slope := 0, terrain := "open",
    cost := 1, exposure := 0, elevation := 0, step_type := "segment",
    km_marker := 0 }

/-- A minimal route candidate with one step of the given slope. -/
def mkCand (id : String) (cost slope : ℚ) : RouteCandidate :=
  { id := id, steps := [{ stepOpen with slope := slope }], distance_m := 100,
    ascent_m := 0, descent_m := 0, estimated_cost := cost, composite := none,
    constraints_used := [], score_breakdown := [], uncertainty := [],
    coverage := [], coverage_units := "km", estimated_cost_notes := "",
    hydrology_check := [], mobility := [] }

/-- Route with cost 2 (first in iteration order). -/
def cA : RouteCandidate := mkCand "r1" 2 0

/-- Route with cost 3/2 (second in iteration order). -/
def cB : RouteCandidate := mkCand "r2" (3 / 2) 0

/-- A risk record whose three components are all `v`, so that the
aggregate is exactly `v`. -/
def mkRiskR (id : String) (v : ℚ) : RouteRisk :=
  { route_id := id, slope_risk := v, exposure_risk := v, hydrology_risk := v,
    weights := RISK_WEIGHTS, formula := RISK_FORMULA, components := [],
    hydrology_check := [] }

/-- Risk map: `r2` has aggregate 1, everything else 1/2. -/
def cRisks : String → RouteRisk := fun id =>
  if id = "r2" then mkRiskR "r2" 1 else mkRiskR id (1 / 2)

/-- Pace map: ten minutes for every route. -/
def cPaces : String → PaceEstimate := fun id =>
  { route_id := id, travel_time_minutes := 10, mode := "foot", load_kg := 25,
    base_speed_kmh := 5, assumptions := [] }

/-- Witness for C1 at a concrete input. -/
theorem select_route_filters_and_minimizes_witness :
    ∃ res, select_route [cA] cRisks cPaces noConstraints 0 = Except.ok res ∧
      rejectReason noConstraints cPaces 0 res.selected_route = none ∧
      res.selected_route ∈ [cA] ∧
      ∀ r ∈ [cA], rejectReason noConstraints cPaces 0 r = none →
        routeScore noConstraints cRisks res.selected_route ≤
          routeScore noConstraints cRisks r := by
  have hsteps : ∀ r ∈ [cA], r.steps ≠ [] := by
    intro r hr
    have h := List.mem_singleton.mp hr
    subst h
    decide
  have hne : List.filter (passesF noConstraints cPaces 0) [cA] ≠ [] := by
    have hf : List.filter (passesF noConstraints cPaces 0) [cA] = [cA] := rfl
    rw [hf]
    exact List.cons_ne_nil _ _
  exact (select_route_filters_and_minimizes [cA] cRisks cPaces noConstraints 0 hsteps).2 hne

/-- C2 evaluated at the failing input: `cA` and `cB` have equal composite
score, `cB` has the strictly lower `estimated_cost` and passes all
filters, yet `select_route` keeps the first-iterated route `cA` — the
declared cost tie-break never runs. -/
theorem select_route_tie_keeps_first_route :
    (select_route [cA, cB] cRisks cPaces noConstraints 0).map
        (fun res => res.selected_route.id) = Except.ok "r1" ∧
      routeScore noConstraints cRisks cA = routeScore noConstraints cRisks cB ∧
      cB.estimated_cost < cA.estimated_cost ∧
      rejectReason noConstraints cPaces 0 cB = none ∧
      lookupA ((buildSelectionResult noConstraints cRisks cPaces
        { best := none, rationale_parts := [], evaluations := [] } cA).policy)
        "tiebreakers"
        = some (PyVal.vList [PyVal.vStr "lowest composite",
            PyVal.vStr "lowest estimated_cost", PyVal.vStr "greater trail_km"]) := by
  refine ⟨by with_unfolding_all rfl, ?_, by with_unfolding_all decide, rfl, rfl⟩
  with_unfolding_all decide

/-- Candidate with max slope 5°. -/
def e1 : RouteCandidate := mkCand "r1" 1 5

/-- Candidate with max slope 15°. -/
def e2 : RouteCandidate := mkCand "r2" 1 15

/-- Candidate with max slope 20°. -/
def e3 : RouteCandidate := mkCand "r3" 1 20

/-- Constraints that reject slopes above 10°. -/
def slopeConstraints : RouteSelectionConstraints := { avoid_slope_degrees := some 10 }

/-- C3 counterexample: three candidates with max slopes 5°, 15°, 20° and
`avoid_slope_degrees = 10`.  The surviving candidate `r1` is selected, but
the two rejected candidates do not appear in `alternates` at all —
`alternates` is empty and the rejections are recorded only in the
rationale string. -/
theorem select_route_rejected_absent_from_alternates :
    (select_route [e1, e2, e3] cRisks cPaces slopeConstraints 0).map
        (fun res => (res.selected_route.id, res.alternates.map (fun a => a.route_id),
          res.rationale))
      = Except.ok ("r1", ([] : List String),
          "r2 rejected: slope above threshold; r3 rejected: slope above threshold; r1 selected with aggregate risk 0.50") := by
  with_unfolding_all rfl

/-- The concrete selection result produced for `[cA, cB]` with default
constraints. -/
def wSel : RouteSelectionResult :=
  ((select_route [cA, cB] cRisks cPaces noConstraints 0).toOption).get
    (by with_unfolding_all rfl)

/-- Witness for the amended C3 at a concrete input. -/
theorem select_route_alternates_cover_witness :
    ∃ e ∈ wSel.alternates, e.route_id = "r2" := by
  have h := select_route_alternates_cover [cA, cB] cRisks cPaces noConstraints 0
    (by decide) wSel (by with_unfolding_all rfl)
  refine h.1 cB (by simp) rfl ?_
  have hid : wSel.selected_route.id = "r1" := by with_unfolding_all rfl
  rw [hid]
  decide

/-! ## Risk bounds (C4) -/

theorem riskNormalized_bounds (v u : ℚ) :
    0 ≤ riskNormalized v u ∧ riskNormalized v u ≤ 1 := by
  unfold riskNormalized
  split_ifs
  · exact ⟨le_refl 0, zero_le_one⟩
  · exact ⟨le_max_left 0 _, max_le zero_le_one (min_le_left _ _)⟩

theorem pyRound3_div1000 (x : ℚ) : ∃ k : ℤ, pyRound 3 x = (k : ℚ) / 1000 := by
  refine ⟨pyRoundInt (x * (10 : ℚ) ^ (3 : ℕ)), ?_⟩
  unfold pyRound
  norm_num

theorem slope_risk_bounds (steps : List RouteStep) :
    0 ≤ slope_risk steps ∧ slope_risk steps ≤ 1 := by
  unfold slope_risk
  by_cases h : (segmentSteps steps).isEmpty
  · simp [h]
  · simp only [h, if_false, Bool.false_eq_true]
    have h1 := riskNormalized_bounds
      (((segmentSteps steps).map (fun s => s.slope)).sum / ((segmentSteps steps).length : ℚ)) 15
    have h2 := riskNormalized_bounds (listMaxQ ((segmentSteps steps).map (fun s => s.slope))) 25
    constructor
    · refine pyRound_nonneg _ (le_min ?_ zero_le_one)
      nlinarith [h1.1, h2.1]
    · exact pyRound_le_one _ (min_le_right _ _)

theorem exposure_risk_bounds (steps : List RouteStep) :
    0 ≤ exposure_risk steps ∧ exposure_risk steps ≤ 1 := by
  unfold exposure_risk
  by_cases h : (segmentSteps steps).isEmpty
  · simp [h]
  · simp only [h, if_false, Bool.false_eq_true]
    have h1 := riskNormalized_bounds
      (((segmentSteps steps).map (fun s => s.exposure)).sum / ((segmentSteps steps).length : ℚ)) 1
    exact ⟨pyRound_nonneg _ h1.1, pyRound_le_one _ h1.2⟩

theorem hydrology_risk_bounds (steps : List RouteStep) :
    0 ≤ hydrology_risk steps ∧ hydrology_risk steps ≤ 1 := by
  unfold hydrology_risk
  by_cases h : (segmentSteps steps).isEmpty
  · simp [h]
  · simp only [h, if_false, Bool.false_eq_true]
    have h1 := riskNormalized_bounds
      ((((segmentSteps steps).filter (fun s => strContains s.terrain.toLower "water")).length : ℚ) * 2
        + (((segmentSteps steps).filter (fun s => strContains s.terrain.toLower "wetland")).length : ℚ))
      (max ((segmentSteps steps).length : ℚ) 1)
    exact ⟨pyRound_nonneg _ h1.1, pyRound_le_one _ h1.2⟩

/-- C4: for every route candidate, the risk scorer returns `slope_risk`,
`exposure_risk` and `hydrology_risk` each in `[0, 1]` and each a multiple
of 1/1000 (rounded to three decimals); the derived aggregate
`0.45·slope + 0.35·exposure + 0.20·hydrology` lies in `[0, 1]`; and a
route whose step list has no segment steps yields all three components
equal to 0.  The record is the one `evaluate_routes` builds. -/
theorem risk_components_in_range (route : RouteCandidate) :
    evaluate_routes [route] = [(route.id, riskRecordFor route)] ∧
    (0 ≤ (riskRecordFor route).slope_risk ∧ (riskRecordFor route).slope_risk ≤ 1 ∧
      ∃ k : ℤ, (riskRecordFor route).slope_risk = (k : ℚ) / 1000) ∧
    (0 ≤ (riskRecordFor route).exposure_risk ∧ (riskRecordFor route).exposure_risk ≤ 1 ∧
      ∃ k : ℤ, (riskRecordFor route).exposure_risk = (k : ℚ) / 1000) ∧
    (0 ≤ (riskRecordFor route).hydrology_risk ∧ (riskRecordFor route).hydrology_risk ≤ 1 ∧
      ∃ k : ℤ, (riskRecordFor route).hydrology_risk = (k : ℚ) / 1000) ∧
    (0 ≤ (riskRecordFor route).aggregate ∧ (riskRecordFor route).aggregate ≤ 1) ∧
    (segmentSteps route.steps = [] →
      (riskRecordFor route).slope_risk = 0 ∧ (riskRecordFor route).exposure_risk = 0 ∧
        (riskRecordFor route).hydrology_risk = 0) := by
  have hs := slope_risk_bounds route.steps
  have he := exposure_risk_bounds route.steps
  have hh := hydrology_risk_bounds route.steps
  have hsl : (riskRecordFor route).slope_risk = slope_risk route.steps := rfl
  have hex : (riskRecordFor route).exposure_risk = exposure_risk route.steps := rfl
  have hhy : (riskRecordFor route).hydrology_risk = hydrology_risk route.steps := rfl
  have hagg : (riskRecordFor route).aggregate
      = 45 / 100 * slope_risk route.steps + 35 / 100 * exposure_risk route.steps
        + 2 / 10 * hydrology_risk route.steps := rfl
  refine ⟨rfl, ?_, ?_, ?_, ?_, ?_⟩
  · refine ⟨hsl ▸ hs.1, hsl ▸ hs.2, ?_⟩
    rw [hsl]
    unfold slope_risk
    by_cases h : (segmentSteps route.steps).isEmpty
    · simp only [h, if_true]
      exact ⟨0, by norm_num⟩
    · simp only [h, if_false, Bool.false_eq_true]
      exact pyRound3_div1000 _
  · refine ⟨hex ▸ he.1, hex ▸ he.2, ?_⟩
    rw [hex]
    unfold exposure_risk
    by_cases h : (segmentSteps route.steps).isEmpty
    · simp only [h, if_true]
      exact ⟨0, by norm_num⟩
    · simp only [h, if_false, Bool.false_eq_true]
      exact pyRound3_div1000 _
  · refine ⟨hhy ▸ hh.1, hhy ▸ hh.2, ?_⟩
    rw [hhy]
    unfold hydrology_risk
    by_cases h : (segmentSteps route.steps).isEmpty
    · simp only [h, if_true]
      exact ⟨0, by norm_num⟩
    · simp only [h, if_false, Bool.false_eq_true]
      exact pyRound3_div1000 _
  · rw [hagg]
    constructor
    · nlinarith [hs.1, he.1, hh.1]
    · nlinarith [hs.2, he.2, hh.2]
  · intro hempty
    have h : (segmentSteps route.steps).isEmpty = true := by
      rw [hempty]; rfl
    refine ⟨?_, ?_, ?_⟩
    · rw [hsl]; unfold slope_risk; simp only [h, if_true]
    · rw [hex]; unfold exposure_risk; simp only [h, if_true]
    · rw [hhy]; unfold hydrology_risk; simp only [h, if_true]

/-- A candidate whose step list contains no segment steps. -/
def cNoSeg : RouteCandidate :=
  { cA with steps := [{ stepOpen with step_type := "waypoint" }] }

/-- Witness for C4 at a concrete input: a route with no segment steps
yields all-zero components, and the aggregate bound holds there. -/
theorem risk_components_in_range_witness :
    ((riskRecordFor cNoSeg).slope_risk = 0 ∧ (riskRecordFor cNoSeg).exposure_risk = 0 ∧
      (riskRecordFor cNoSeg).hydrology_risk = 0) ∧
    0 ≤ (riskRecordFor cNoSeg).aggregate := by
  have h := risk_components_in_range cNoSeg
  exact ⟨h.2.2.2.2.2 rfl, h.2.2.2.2.1.1⟩

/-! ## Pace bounds (C6, amended part) -/

/-- C6 (amended): `estimate_travel_time` returns a nonnegative
`travel_time_minutes` for any route with nonnegative distance (the speed
is clamped to at least 1.5 km/h, so the pre-rounding time is strictly
positive whenever `distance_m > 0`), and a candidate whose `distance_m`
is 0 — such as the trivial single-node road path — yields exactly 0, not
a strictly positive value. -/
theorem estimate_travel_time_nonneg (route : RouteCandidate) (mode : String)
    (load_kg : ℚ) (hd : 0 ≤ route.distance_m) :
    (3 / 2 : ℚ) ≤ naismith_adjusted_speed route mode load_kg ∧
    0 ≤ (estimate_travel_time route mode load_kg).travel_time_minutes ∧
    (0 < route.distance_m →
      0 < route.distance_m / 1000 / naismith_adjusted_speed route mode load_kg * 60) ∧
    (route.distance_m = 0 →
      (estimate_travel_time route mode load_kg).travel_time_minutes = 0) := by
  have hspeed : (3 / 2 : ℚ) ≤ naismith_adjusted_speed route mode load_kg := by
    unfold naismith_adjusted_speed
    exact le_max_right _ _
  have hspeed_pos : 0 < naismith_adjusted_speed route mode load_kg := by linarith
  have htime : (estimate_travel_time route mode load_kg).travel_time_minutes
      = pyRound 1 (route.distance_m / 1000 / naismith_adjusted_speed route mode load_kg * 60) := rfl
  refine ⟨hspeed, ?_, ?_, ?_⟩
  · rw [htime]
    refine pyRound_nonneg _ ?_
    have h1 : 0 ≤ route.distance_m / 1000 := by positivity
    have h2 : 0 ≤ route.distance_m / 1000 / naismith_adjusted_speed route mode load_kg :=
      div_nonneg h1 (le_of_lt hspeed_pos)
    linarith
  · intro hpos
    have h1 : 0 < route.distance_m / 1000 := by positivity
    have h2 : 0 < route.distance_m / 1000 / naismith_adjusted_speed route mode load_kg :=
      div_pos h1 hspeed_pos
    linarith
  · intro hzero
    rw [htime, hzero]
    norm_num [pyRound_zero]

/-! ## Terrain helpers (`terrain.py`) -/

/-- The irrational float primitives of the source (`math.sqrt`,
`math.degrees(math.atan ·)`, `math.pow`), abstracted as rational-valued
functions so the embedding stays executable; theorems state explicitly
which properties of them they need. -/
structure FloatOps where
  sqrt : ℚ → ℚ
  atanDeg : ℚ → ℚ
  powf : ℚ → ℚ → ℚ

/-- Grid cell index (row, col); Python ints. -/
abbrev GridIndex : Type := ℤ × ℤ

/-- Row-major grid access `grid[r][c]`; every use in the source is guarded
by `in_bounds`, so the default is unreachable there. -/
def gridAt {α : Type} (grid : List (List α)) (r c : ℤ) (d : α) : α :=
  ((grid.getD r.toNat []).getD c.toNat d)

/-- Embedding of `terrain.coordinate_to_grid`; `int(round(x))` is
round-half-to-even. -/
def coordinate_to_grid (coord : Coordinate) (dem : DEMData) : GridIndex :=
  let northing := (coord.1 - dem.metadata.origin.1) * 111320
  let easting := (coord.2 - dem.metadata.origin.2) * 85000
  (pyRoundInt (northing / dem.metadata.cell_size_m),
   pyRoundInt (easting / dem.metadata.cell_size_m))

/-- Embedding of `terrain.grid_to_coordinate` (six-decimal rounding). -/
def grid_to_coordinate (row col : ℤ) (dem : DEMData) : Coordinate :=
  (pyRound 6 (dem.metadata.origin.1 + ((row : ℚ) * dem.metadata.cell_size_m) / 111320),
   pyRound 6 (dem.metadata.origin.2 + ((col : ℚ) * dem.metadata.cell_size_m) / 85000))

/-- Embedding of `terrain.in_bounds`. -/
def in_bounds (row col : ℤ) (dem : DEMData) : Bool :=
  decide (0 ≤ row) && decide (row < (dem.height : ℤ))
    && decide (0 ≤ col) && decide (col < (dem.width : ℤ))

/-- Embedding of `terrain.slope_between`. -/
def slope_between (ops : FloatOps) (dem : DEMData) (r1 c1 r2 c2 : ℤ) : ℚ :=
  let elev1 := gridAt dem.grid r1 c1 0
  let elev2 := gridAt dem.grid r2 c2 0
  let delta_h := elev2 - elev1
  let dist_m := dem.metadata.cell_size_m * ops.sqrt ((r2 - r1) ^ 2 + (c2 - c1) ^ 2)
  if dist_m = 0 then 0 else ops.atanDeg (|delta_h| / dist_m)

/-- Embedding of `terrain.local_slope` (max slope to the in-bounds
eight-neighbours; `max` of an empty list is Python-unreachable and the
source returns 0 for it explicitly). -/
def local_slope (ops : FloatOps) (dem : DEMData) (row col : ℤ) : ℚ :=
  let offsets : List (ℤ × ℤ) :=
    [(-1, -1), (-1, 0), (-1, 1), (0, -1), (0, 1), (1, -1), (1, 0), (1, 1)]
  let slopes := (offsets.filter (fun d => in_bounds (row + d.1) (col + d.2) dem)).map
    (fun d => slope_between ops dem row col (row + d.1) (col + d.2))
  match slopes with
  | [] => 0
  | _ => listMaxQ slopes

/-- The landcover class record for a cell label; the lookup default is
unreachable under the bundle invariant that every grid label is a key of
the class table (Python would raise `KeyError`). -/
def landcoverClassAt (landcover : LandcoverData) (row col : ℤ) : LandcoverClass :=
  let cover := gridAt landcover.grid row col ""
  (lookupA landcover.classes cover).getD
    { name := cover, cost_factor := 1, exposure := 0, speed_modifier := 1 }

/-- Embedding of `terrain.terrain_cost`. -/
def terrain_cost (landcover : LandcoverData) (row col : ℤ) : ℚ :=
  (landcoverClassAt landcover row col).cost_factor

/-- Embedding of `terrain.exposure_score`. -/
def exposure_score (landcover : LandcoverData) (row col : ℤ) : ℚ :=
  (landcoverClassAt landcover row col).exposure

/-- Loop state of `assemble_route_steps`. -/
structure AsmState where
  cumulative_m : ℚ
  last_checkpoint_m : ℚ
  prev : GridIndex
  last_terrain : String
  checkpoint_counter : ℕ
  steps : List RouteStep

/-- One iteration of the `for segment_id, (row, col) in enumerate(path,
start=1)` loop of `assemble_route_steps`. -/
def asmStep (ops : FloatOps) (dem : DEMData) (landcover : LandcoverData)
    (checkpoint_interval_m : ℚ) (st : AsmState) (ip : ℕ × GridIndex) : AsmState :=
  let segment_id : ℤ := (ip.1 : ℤ) + 1
  let row := ip.2.1
  let col := ip.2.2
  let st1 :=
    if segment_id > 1 then
      let seg_dist := dem.metadata.cell_size_m *
        ops.sqrt ((row - st.prev.1) ^ 2 + (col - st.prev.2) ^ 2)
      { st with cumulative_m := st.cumulative_m + seg_dist, prev := (row, col) }
    else st
  let coord := grid_to_coordinate row col dem
  let slope := pyRound 2 (local_slope ops dem row col)
  let terrain := gridAt landcover.grid row col ""
  let cost := terrain_cost landcover row col
  let exposure := exposure_score landcover row col
  let km_marker := pyRound 3 (st1.cumulative_m / 1000)
  let base_step : RouteStep :=
    { segment_id := segment_id, coordinate := coord, slope := slope,
      terrain := terrain, cost := cost, exposure := exposure,
      elevation := gridAt dem.grid row col 0, step_type := "segment",
      km_marker := km_marker, label := none }
  let st2 := { st1 with steps := st1.steps ++ [base_step] }
  let should_checkpoint :=
    (terrain ≠ st.last_terrain ∧ segment_id > 1) ∨
      (st1.cumulative_m - st.last_checkpoint_m ≥ checkpoint_interval_m ∧ segment_id > 1)
  let st3 :=
    if should_checkpoint then
      let counter' := st.checkpoint_counter + 1
      let reason :=
        if terrain ≠ st.last_terrain then "Terrain " ++ st.last_terrain ++ "→" ++ terrain
        else "Distance " ++ toString (⌊st1.cumulative_m⌋) ++ " m"
      let label := "CP" ++ toString counter' ++ ": " ++ reason
      let checkpoint_step : RouteStep :=
        { segment_id := segment_id, coordinate := coord, slope := slope,
          terrain := terrain, cost := cost, exposure := exposure,
          elevation := gridAt dem.grid row col 0, step_type := "checkpoint",
          km_marker := km_marker, label := some label }
      { st2 with
          steps := st2.steps ++ [checkpoint_step],
          last_checkpoint_m := st1.cumulative_m,
          checkpoint_counter := counter' }
    else st2
  { st3 with last_terrain := terrain }

/-- Embedding of `terrain.assemble_route_steps`. -/
def assemble_route_steps (ops : FloatOps) (path : List GridIndex) (dem : DEMData)
    (landcover : LandcoverData) (checkpoint_interval_m : ℚ := 250) : List RouteStep :=
  match path with
  | [] => []
  | p0 :: _ =>
      (path.enum.foldl (asmStep ops dem landcover checkpoint_interval_m)
        { cumulative_m := 0, last_checkpoint_m := 0, prev := p0,
          last_terrain := gridAt landcover.grid p0.1 p0.2 "",
          checkpoint_counter := 0, steps := [] }).steps

/-- Embedding of `terrain.route_distance_and_elevation`. -/
def route_distance_and_elevation (ops : FloatOps) (path : List GridIndex)
    (dem : DEMData) : ℚ × ℚ × ℚ :=
  if path.length < 2 then (0, 0, 0)
  else
    (path.zip path.tail).foldl
      (fun acc pq =>
        let elev1 := gridAt dem.grid pq.1.1 pq.1.2 0
        let elev2 := gridAt dem.grid pq.2.1 pq.2.2 0
        let segment := dem.metadata.cell_size_m *
          ops.sqrt ((pq.2.1 - pq.1.1) ^ 2 + (pq.2.2 - pq.1.2) ^ 2)
        (acc.1 + segment,
         if elev2 > elev1 then acc.2.1 + (elev2 - elev1) else acc.2.1,
         if elev2 > elev1 then acc.2.2 else acc.2.2 + (elev1 - elev2)))
      (0, 0, 0)

/-! ## Grid A* (`pathfinding.py`, identical in both package copies) -/

/-- Embedding of `pathfinding._cell_centroid`; the source builds
`Point(lon, lat)`. -/
def cell_centroid (row col : ℤ) (origin : Coordinate) (cell_size : ℚ) : Point :=
  { x := origin.2 + (((col : ℚ) + 1 / 2) * cell_size) / 85000,
    y := origin.1 + (((row : ℚ) + 1 / 2) * cell_size) / 111320 }

/-- Embedding of `pathfinding._approx_distance`. -/
def approx_distance (ops : FloatOps) (coord1 coord2 : Coordinate) : ℚ :=
  let dlat := (coord2.1 - coord1.1) * 111320
  let dlon := (coord2.2 - coord1.2) * 85000
  ops.sqrt (dlat ^ 2 + dlon ^ 2)

/-- Python `min` over rationals (first minimal wins); empty input raises
in Python and is unreachable at the call sites. -/
def listMinQ (xs : List ℚ) : ℚ :=
  xs.foldl min (xs.headD 0)

/-- Embedding of `pathfinding._road_influence`. -/
def road_influence (ops : FloatOps) (roads : List (String × List Coordinate))
    (coord : Coordinate) : ℚ :=
  if roads.isEmpty then 1
  else
    let best_distance := listMinQ
      ((roads.map (fun r => r.2)).flatten.map (approx_distance ops coord))
    if best_distance < 100 then 7 / 10
    else if best_distance < 300 then 85 / 100
    else if best_distance < 500 then 95 / 100
    else 1

/-- Embedding of `pathfinding.heuristic`. -/
def heuristic (ops : FloatOps) (a b : GridIndex) (cell_size : ℚ) : ℚ :=
  cell_size * ops.sqrt ((a.1 - b.1) ^ 2 + (a.2 - b.2) ^ 2)

/-- A cell is blocked when obstacles exist and its centroid lies inside
some obstacle polygon (`cell_blocked` inside `a_star_route`). -/
def cell_blocked (obstacle_list : List Polygon) (origin : Coordinate)
    (cell_size : ℚ) (row col : ℤ) : Bool :=
  if obstacle_list.isEmpty then false
  else obstacle_list.any (fun poly => poly.contains (cell_centroid row col origin cell_size))

/-- Lexicographic strict order on heap entries `(f, (row, col))` — the
order in which Python compares the tuples pushed on the `heapq` heap. -/
def heapLtQI (a b : ℚ × GridIndex) : Bool :=
  decide (a.1 < b.1) ||
    (a.1 == b.1 && (decide (a.2.1 < b.2.1) ||
      (a.2.1 == b.2.1 && decide (a.2.2 < b.2.2))))

/-- Remove-min from a list, modelling `heapq.heappop`: the heap always
pops a minimal element, and elements comparing equal under the total
tuple order are identical values, so extracting the first minimum is
observationally the heap's behaviour. -/
def popMinBy {α : Type} [BEq α] (lt : α → α → Bool) (l : List α) :
    Option (α × List α) :=
  match l with
  | [] => none
  | x :: xs =>
      let m := xs.foldl (fun acc y => if lt y acc then y else acc) x
      some (m, l.erase m)

/-- The eight-connected neighbourhood of the grid search. -/
def neighborOffsets : List (ℤ × ℤ) :=
  [(-1, -1), (-1, 0), (-1, 1), (0, -1), (0, 1), (1, -1), (1, 0), (1, 1)]

/-- Mutable maps of the A* loop. -/
structure AStarMaps where
  open_set : List (ℚ × GridIndex)
  came_from : List (GridIndex × GridIndex)
  g_score : List (GridIndex × ℚ)
  f_score : List (GridIndex × ℚ)

/-- The `came_from` chase of the path reconstruction, already producing
the reversed list (`list(reversed(path))`).  The fuel only guards against
a cyclic `came_from`, which the strictly-decreasing `g_score` updates
never produce in an actual run. -/
def chaseCameFrom {α : Type} [BEq α] (fuel : ℕ) (cf : List (α × α)) (cur : α)
    (acc : List α) : List α :=
  match fuel with
  | 0 => acc
  | f + 1 =>
      match lookupA cf cur with
      | none => acc
      | some p => chaseCameFrom f cf p (p :: acc)

/-- Neighbour expansion for one offset (`for dr, dc in neighbors` body of
`a_star_route`). -/
def aStarExpand (ops : FloatOps) (dem : DEMData) (landcover : LandcoverData)
    (obstacle_list : List Polygon) (roads : List (String × List Coordinate))
    (slope_weight : ℚ) (terrain_multipliers : List (String × ℚ))
    (exposure_penalty road_bias : ℚ) (goal_idx current : GridIndex)
    (st : AStarMaps) (d : ℤ × ℤ) : AStarMaps :=
  let cell_size := dem.metadata.cell_size_m
  let origin := dem.metadata.origin
  let nr := current.1 + d.1
  let nc := current.2 + d.2
  if ¬ in_bounds nr nc dem then st
  else if cell_blocked obstacle_list origin cell_size nr nc then st
  else
    let terrain_name := gridAt landcover.grid nr nc ""
    let terrain_factor0 := terrain_cost landcover nr nc
    let terrain_factor :=
      if terrain_multipliers.isEmpty then terrain_factor0
      else terrain_factor0 * (lookupA terrain_multipliers terrain_name).getD 1
    let slope := slope_between ops dem current.1 current.2 nr nc
    let slope_factor := 1 + slope / 30 * slope_weight
    let coord := grid_to_coordinate nr nc dem
    let road_factor0 := road_influence ops roads coord
    let road_factor := if road_bias ≠ 1 then ops.powf road_factor0 road_bias else road_factor0
    let exposure_factor := 1 + exposure_penalty * exposure_score landcover nr nc
    let move_cost := cell_size * ops.sqrt ((d.1 : ℚ) ^ 2 + (d.2 : ℚ) ^ 2)
    let tentative_g := (lookupA st.g_score current).getD 0
      + move_cost * terrain_factor * slope_factor * road_factor * exposure_factor
    let neighbor : GridIndex := (nr, nc)
    let improves :=
      match lookupA st.g_score neighbor with
      | none => true
      | some old => decide (tentative_g < old)
    if improves then
      let fscore := tentative_g + heuristic ops neighbor goal_idx cell_size
      { open_set := st.open_set ++ [(fscore, neighbor)],
        came_from := setA st.came_from neighbor current,
        g_score := setA st.g_score neighbor tentative_g,
        f_score := setA st.f_score neighbor fscore }
    else st

/-- The `while open_set` loop of `a_star_route`; the fuel bounds the
number of iterations (the Python loop has no explicit cap; any fuel large
enough for the finite grid gives the loop's exit behaviour). -/
def aStarLoop (ops : FloatOps) (dem : DEMData) (landcover : LandcoverData)
    (obstacle_list : List Polygon) (roads : List (String × List Coordinate))
    (slope_weight : ℚ) (terrain_multipliers : List (String × ℚ))
    (exposure_penalty road_bias : ℚ) (goal_idx : GridIndex) :
    ℕ → AStarMaps → Option (List GridIndex)
  | 0, _ => none
  | fuel + 1, st =>
      match popMinBy heapLtQI st.open_set with
      | none => none
      | some (entry, rest) =>
          let current := entry.2
          if current = goal_idx then
            some (chaseCameFrom (st.came_from.length + 1) st.came_from current [current])
          else
            let st' := neighborOffsets.foldl
              (aStarExpand ops dem landcover obstacle_list roads slope_weight
                terrain_multipliers exposure_penalty road_bias goal_idx current)
              { st with open_set := rest }
            aStarLoop ops dem landcover obstacle_list roads slope_weight
              terrain_multipliers exposure_penalty road_bias goal_idx fuel st'

/-- Embedding of `pathfinding.a_star_route` (both copies are identical up
to logging). -/
def a_star_route (ops : FloatOps) (fuel : ℕ) (start goal : Coordinate)
    (dem : DEMData) (landcover : LandcoverData) (obstacle_polys : List Polygon)
    (roads : List (String × List Coordinate)) (slope_weight : ℚ := 1)
    (terrain_multipliers : List (String × ℚ) := []) (exposure_penalty : ℚ := 0)
    (road_bias : ℚ := 1) : Option (List GridIndex) :=
  let start_idx := coordinate_to_grid start dem
  let goal_idx := coordinate_to_grid goal dem
  if ¬ (in_bounds start_idx.1 start_idx.2 dem && in_bounds goal_idx.1 goal_idx.2 dem) then
    none
  else
    aStarLoop ops dem landcover obstacle_polys roads slope_weight
      terrain_multipliers exposure_penalty road_bias goal_idx fuel
      { open_set := [(0, start_idx)],
        came_from := [],
        g_score := [(start_idx, 0)],
        f_score := [(start_idx, heuristic ops start_idx goal_idx dem.metadata.cell_size_m)] }

/-! ## Grid candidate generation (shared body of both
`generate_route_candidates` copies) -/

/-- A named cost profile of the candidate generator. -/
structure CostProfile where
  id : String
  label : String
  slope_weight : ℚ
  terrain_multipliers : List (String × ℚ)
  exposure_penalty : ℚ
  road_bias : ℚ
  constraints : List (String × PyVal)
  cost_weights : List (String × ℚ)

/-- The fixed profile list (`balanced`, `trail_pref`, `low_exposure`). -/
def gridProfiles : List CostProfile :=
  [{ id := "balanced", label := "Balanced surfaces", slope_weight := 1,
     terrain_multipliers := [("trail", 75 / 100), ("road", 8 / 10)],
     exposure_penalty := 5 / 100, road_bias := 1,
     constraints := [("avoid", PyVal.vList []),
       ("prefer", PyVal.vList [PyVal.vStr "mixed"]), ("mode", PyVal.vStr "foot")],
     cost_weights := [("slope", 4 / 10), ("terrain", 35 / 100), ("exposure", 25 / 100)] },
   { id := "trail_pref", label := "Prefer trails", slope_weight := 9 / 10,
     terrain_multipliers := [("trail", 6 / 10), ("road", 85 / 100),
       ("forest", 11 / 10), ("open", 12 / 10)],
     exposure_penalty := 3 / 100, road_bias := 8 / 10,
     constraints := [("avoid", PyVal.vList []),
       ("prefer", PyVal.vList [PyVal.vStr "trail"]), ("mode", PyVal.vStr "foot")],
     cost_weights := [("slope", 35 / 100), ("terrain", 45 / 100), ("exposure", 2 / 10)] },
   { id := "low_exposure", label := "Limit exposure", slope_weight := 12 / 10,
     terrain_multipliers := [("open", 14 / 10), ("trail", 85 / 100), ("road", 8 / 10)],
     exposure_penalty := 12 / 100, road_bias := 11 / 10,
     constraints := [("avoid", PyVal.vList [PyVal.vStr "open"]),
       ("prefer", PyVal.vList [PyVal.vStr "cover"]), ("mode", PyVal.vStr "foot")],
     cost_weights := [("slope", 45 / 100), ("terrain", 25 / 100), ("exposure", 3 / 10)] }]

/-- Placeholder step for the (unreachable) out-of-range indexing of
`segment_steps[idx]` inside the hydrology loop. -/
def phRouteStep : RouteStep :=
  { segment_id := 0, coordinate := (0, 0), slope := 0, terrain := "",
    cost := 0, exposure := 0, elevation := 0, step_type := "", km_marker := 0 }

/-- State of the hydrology/coverage loop (`for idx in range(1, len(path))`). -/
structure HydroState where
  terrain_distance : List (String × ℚ)
  crossings : ℕ
  nearest : Option ℚ
  prev_is_hydro : Bool

/-- One iteration of the hydrology/coverage loop. -/
def hydroStep (ops : FloatOps) (dem : DEMData) (landcover : LandcoverData)
    (path : List GridIndex) (segment_steps : List RouteStep)
    (st : HydroState) (i : ℕ) : HydroState :=
  let p1 := path.getD (i - 1) (0, 0)
  let p2 := path.getD i (0, 0)
  let terrain_name := gridAt landcover.grid p2.1 p2.2 ""
  let seg_dist := dem.metadata.cell_size_m *
    ops.sqrt ((p2.1 - p1.1) ^ 2 + (p2.2 - p1.2) ^ 2)
  let td := setA st.terrain_distance terrain_name
    ((lookupA st.terrain_distance terrain_name).getD 0 + seg_dist)
  let step := segment_steps.getD i phRouteStep
  let is_hydro := strContains terrain_name.toLower "wetland"
    || strContains terrain_name.toLower "water"
  let crossings := if is_hydro && !st.prev_is_hydro then st.crossings + 1 else st.crossings
  let nearest :=
    if is_hydro then
      let distance_m := step.km_marker * 1000
      match st.nearest with
      | none => some distance_m
      | some old => if distance_m < old then some distance_m else some old
    else st.nearest
  { terrain_distance := td, crossings := crossings, nearest := nearest,
    prev_is_hydro := is_hydro }

/-- The candidate built for one profile at (1-based) position `idx`, given
the A* path.  Returns `none` when the assembled steps hold no segment
steps (`continue`).  The provisional `route-N` id reproduces the source
faithfully: the inner hydrology loop reuses the name `idx`, so after it
runs the id uses `len(path) - 1` instead of the profile position. -/
def gridCandidateFor (ops : FloatOps) (dem : DEMData) (landcover : LandcoverData)
    (profile : CostProfile) (idx : ℕ) (path : List GridIndex) :
    Option RouteCandidate :=
  let steps := assemble_route_steps ops path dem landcover 250
  let segment_steps := steps.filter (fun s => s.step_type == "segment")
  let dae := route_distance_and_elevation ops path dem
  if segment_steps.isEmpty then none
  else
    let terrain_adjusted := segment_steps.map
      (fun s => s.cost * (lookupA profile.terrain_multipliers s.terrain).getD 1)
    let avg_slope := (segment_steps.map (fun s => s.slope)).sum / (segment_steps.length : ℚ)
    let avg_terrain := terrain_adjusted.sum / (terrain_adjusted.length : ℚ)
    let avg_exposure := (segment_steps.map (fun s => s.exposure)).sum / (segment_steps.length : ℚ)
    let sb_slope := pyRound 3 avg_slope
    let sb_terrain := pyRound 3 avg_terrain
    let sb_exposure := pyRound 3 avg_exposure
    let weights := profile.cost_weights
    let estimated_cost := pyRound 3
      ((lookupA weights "slope").getD 0 * sb_slope
        + (lookupA weights "terrain").getD 0 * sb_terrain
        + (lookupA weights "exposure").getD 0 * sb_exposure)
    let hyd := (List.range' 1 (path.length - 1)).foldl
      (hydroStep ops dem landcover path segment_steps)
      { terrain_distance := [], crossings := 0, nearest := none, prev_is_hydro := false }
    let provisional_idx : ℕ := if path.length ≥ 2 then path.length - 1 else idx
    let coverage_km := hyd.terrain_distance.map (fun p => (p.1, pyRound 3 (p.2 / 1000)))
    let total_km0 := (coverage_km.map (fun p => p.2)).sum
    let total_km := if total_km0 = 0 then 1 else total_km0
    let mobility : List (String × PyVal) :=
      [("surface_mix", PyVal.vDict (coverage_km.map
          (fun p => (p.1 ++ "_pct", PyVal.vQ (pyRound 1 (p.2 / total_km * 100)))))),
       ("avg_slope_deg", PyVal.vQ (pyRound 2
          ((segment_steps.map (fun s => s.slope)).sum / (segment_steps.length : ℚ)))),
       ("max_slope_deg", PyVal.vQ (pyRound 2
          (listMaxQ (segment_steps.map (fun s => s.slope)))))]
    let hydrology_check : List (String × PyVal) :=
      [("crossings", PyVal.vInt (hyd.crossings : ℤ)),
       ("nearest_water_m", match hyd.nearest with
        | some d => PyVal.vQ (pyRound 1 d)
        | none => PyVal.vNone)]
    some
      { id := "route-" ++ toString provisional_idx
        steps := steps
        distance_m := pyRound 1 dae.1
        ascent_m := pyRound 1 dae.2.1
        descent_m := pyRound 1 dae.2.2
        estimated_cost := estimated_cost
        composite := none
        constraints_used := profile.constraints
        score_breakdown :=
          [("slope", sb_slope), ("terrain", sb_terrain), ("exposure", sb_exposure)]
        uncertainty :=
          [("dem_res_m", PyVal.vQ dem.metadata.cell_size_m),
           ("est_slope_error_deg", PyVal.vQ (1 / 2)),
           ("landcover_update_ts", PyVal.vStr landcover.metadata.last_updated)]
        coverage := coverage_km
        coverage_units := "km"
        estimated_cost_notes :=
          "dimensionless composite: weighted sum of average slope, terrain cost, exposure"
        hydrology_check := hydrology_check
        mobility := mobility
        provenance :=
          [("profile", PyVal.vStr profile.id),
           ("profile_label", PyVal.vStr profile.label),
           ("cost_weights", PyVal.vDict (weights.map (fun p => (p.1, PyVal.vQ p.2)))),
           ("slope_weight", PyVal.vQ profile.slope_weight),
           ("terrain_multipliers", PyVal.vDict
              (profile.terrain_multipliers.map (fun p => (p.1, PyVal.vQ p.2)))),
           ("exposure_penalty", PyVal.vQ profile.exposure_penalty),
           ("road_bias", PyVal.vQ profile.road_bias),
           ("dem_last_updated", PyVal.vStr dem.metadata.last_updated),
           ("landcover_last_updated", PyVal.vStr landcover.metadata.last_updated)] }

/-- The grid-mode body of `generate_route_candidates`: one A* run per
profile, skipping profiles without a path or without segment steps. -/
def gridRouteCandidates (ops : FloatOps) (fuel : ℕ) (start goal : Coordinate)
    (dem : DEMData) (landcover : LandcoverData) (obstacle_polys : List Polygon)
    (roads : List (String × List Coordinate)) (max_candidates : ℕ) :
    List RouteCandidate :=
  ((gridProfiles.take max_candidates).enum.foldl
    (fun acc ip =>
      let idx := ip.1 + 1
      let profile := ip.2
      match a_star_route ops fuel start goal dem landcover obstacle_polys roads
        profile.slope_weight profile.terrain_multipliers profile.exposure_penalty
        profile.road_bias with
      | none => acc
      | some path =>
          match gridCandidateFor ops dem landcover profile idx path with
          | none => acc
          | some candidate => acc ++ [candidate])
    [])

/-! ## Road-network Dijkstra (`packages/.../pathfinding.py`) -/

/-- Adjacency map with `defaultdict(list)` append semantics. -/
def addAdj (g : List (Coordinate × List (Coordinate × ℚ))) (k : Coordinate)
    (v : Coordinate × ℚ) : List (Coordinate × List (Coordinate × ℚ)) :=
  setA g k ((lookupA g k).getD [] ++ [v])

/-- Ordered-set insertion (Python `set.add`; set iteration order is
implementation defined and modelled as first-insertion order). -/
def setInsert (s : List Coordinate) (x : Coordinate) : List Coordinate :=
  if s.contains x then s else s ++ [x]

/-- Graph construction of `road_network_route`: walk each road's
consecutive vertex pairs, swapping the imported `(lon, lat)` order to
`(lat, lon)`, with planar edge weights. -/
def buildRoadGraph (ops : FloatOps) (roads : List (String × List Coordinate)) :
    List (Coordinate × List (Coordinate × ℚ)) × List Coordinate :=
  roads.foldl
    (fun acc road =>
      (road.2.zip road.2.tail).foldl
        (fun acc2 pq =>
          let node1 : Coordinate := (pq.1.2, pq.1.1)
          let node2 : Coordinate := (pq.2.2, pq.2.1)
          let dist := approx_distance ops node1 node2
          (addAdj (addAdj acc2.1 node1 (node2, dist)) node2 (node1, dist),
           setInsert (setInsert acc2.2 node1) node2))
        acc)
    ([], [])

/-- BFS of `find_connected_component` (FIFO queue, visited set in
discovery order); the fuel bounds queue pops, which the Python loop
bounds by the finite graph. -/
def bfsComponent (graph : List (Coordinate × List (Coordinate × ℚ))) :
    ℕ → List Coordinate → List Coordinate → List Coordinate
  | 0, _, component => component
  | _ + 1, [], component => component
  | fuel + 1, current :: queue, component =>
      if component.contains current then bfsComponent graph fuel queue component
      else
        let neighbors := ((lookupA graph current).getD []).filterMap
          (fun p => if (component ++ [current]).contains p.1 then none else some p.1)
        bfsComponent graph fuel (queue ++ neighbors) (component ++ [current])

/-- The component-sampling loop: BFS from each of the first 100 nodes not
yet seen, stopping once at least 90% of all nodes have been examined. -/
def sampleComponents (graph : List (Coordinate × List (Coordinate × ℚ)))
    (bfsFuel : ℕ) (total : ℕ) :
    List Coordinate → List (List Coordinate) × List Coordinate →
      List (List Coordinate) × List Coordinate
  | [], acc => acc
  | node :: rest, (components, checked) =>
      if checked.contains node then
        sampleComponents graph bfsFuel total rest (components, checked)
      else
        let comp := bfsComponent graph bfsFuel [node] []
        let checked' := comp.foldl setInsert checked
        let components' := components ++ [comp]
        if ((checked'.length : ℚ) ≥ (total : ℚ) * (9 / 10)) then
          (components', checked')
        else
          sampleComponents graph bfsFuel total rest (components', checked')

/-- Python `max(components, key=len)` (first maximal wins). -/
def largestComponent (components : List (List Coordinate)) : List Coordinate :=
  match components with
  | [] => []
  | c :: rest => rest.foldl (fun acc d => if d.length > acc.length then d else acc) c

/-- Python `min(nodes, key=dist)` (first minimal wins); `none` on the
empty list, where Python raises `ValueError`. -/
def argminBy (f : Coordinate → ℚ) (l : List Coordinate) : Option Coordinate :=
  match l with
  | [] => none
  | x :: xs => some (xs.foldl (fun acc y => if f y < f acc then y else acc) x)

/-- Lexicographic strict order on Dijkstra heap entries `(dist, node)`. -/
def heapLtQC (a b : ℚ × Coordinate) : Bool :=
  decide (a.1 < b.1) ||
    (a.1 == b.1 && (decide (a.2.1 < b.2.1) ||
      (a.2.1 == b.2.1 && decide (a.2.2 < b.2.2))))

/-- Mutable state of the Dijkstra loop. -/
structure DijState where
  distances : List (Coordinate × ℚ)
  came_from : List (Coordinate × Coordinate)
  pq : List (ℚ × Coordinate)
  visited : List Coordinate

/-- The Dijkstra loop of `road_network_route`; the fuel is the source's
own iteration cap (`max_iterations = 100000`), counted down. -/
def dijkstraLoop (graph : List (Coordinate × List (Coordinate × ℚ)))
    (goal_node : Coordinate) : ℕ → DijState → Option (List Coordinate)
  | 0, _ => none
  | fuel + 1, st =>
      match popMinBy heapLtQC st.pq with
      | none => none
      | some (entry, rest) =>
          let current_dist := entry.1
          let current := entry.2
          if st.visited.contains current then
            dijkstraLoop graph goal_node fuel { st with pq := rest }
          else
            let visited' := st.visited ++ [current]
            if current = goal_node then
              some (chaseCameFrom (st.came_from.length + 1) st.came_from current [current])
            else
              let st' := ((lookupA graph current).getD []).foldl
                (fun acc nb =>
                  if visited'.contains nb.1 then acc
                  else
                    let new_dist := current_dist + nb.2
                    let improves :=
                      match lookupA acc.distances nb.1 with
                      | none => true
                      | some old => decide (new_dist < old)
                    if improves then
                      { acc with
                          distances := setA acc.distances nb.1 new_dist,
                          came_from := setA acc.came_from nb.1 current,
                          pq := acc.pq ++ [(new_dist, nb.1)] }
                    else acc)
                { st with pq := rest, visited := visited' }
              dijkstraLoop graph goal_node fuel st'

/-- Embedding of `road_network_route`.  On a road set with no edges the
Python code raises `ValueError` from `min` over an empty sequence; the
embedding returns `none` there.  `bfsFuel` bounds the BFS loops, which
Python bounds only by graph finiteness. -/
def road_network_route (ops : FloatOps) (bfsFuel : ℕ) (start goal : Coordinate)
    (roads : List (String × List Coordinate)) : Option (List Coordinate) :=
  let ga := buildRoadGraph ops roads
  let graph := ga.1
  let all_nodes := ga.2
  let sampled := sampleComponents graph bfsFuel all_nodes.length
    (all_nodes.take (min 100 all_nodes.length)) ([], [])
  let nodes_list :=
    if ¬ sampled.1.isEmpty then largestComponent sampled.1 else all_nodes
  match argminBy (fun n => approx_distance ops n start) nodes_list,
      argminBy (fun n => approx_distance ops n goal) nodes_list with
  | some start_node, some goal_node =>
      if start_node = goal_node then some [start_node]
      else
        dijkstraLoop graph goal_node 100000
          { distances := [(start_node, 0)], came_from := [],
            pq := [(0, start_node)], visited := [] }
  | _, _ => none

/-- Total planar length of a path (the `total_distance` accumulation of
`generate_road_network_candidates`). -/
def roadPathDistance (ops : FloatOps) (path : List Coordinate) : ℚ :=
  (path.zip path.tail).foldl
    (fun acc pq => acc + approx_distance ops pq.1 pq.2) 0

/-- The step list built from a road path: first and last are waypoints,
interior vertices are segments, all with placeholder terrain attributes. -/
def roadSteps (ops : FloatOps) (path : List Coordinate) : List RouteStep :=
  (path.enum.foldl
    (fun acc ic =>
      let i := ic.1
      let coord := ic.2
      let km_marker :=
        if i > 0 then
          acc.1 + approx_distance ops (path.getD (i - 1) (0, 0)) coord / 1000
        else acc.1
      (km_marker,
       acc.2 ++ [{
          segment_id := (i : ℤ),
          step_type := if i = 0 ∨ i = path.length - 1 then "waypoint" else "segment",
          coordinate := coord, elevation := 100, terrain := "road", cost := 1,
          slope := 0, exposure := 3 / 10, km_marker := km_marker : RouteStep }]))
    ((0 : ℚ), ([] : List RouteStep))).2

/-- Embedding of `generate_road_network_candidates`; `now_iso` stands for
the `datetime.now(timezone.utc).isoformat()` reading stored in
provenance. -/
def generate_road_network_candidates (ops : FloatOps) (bfsFuel : ℕ)
    (start goal : Coordinate) (roads : List (String × List Coordinate))
    (max_candidates : ℕ) (now_iso : String) : List RouteCandidate :=
  match road_network_route ops bfsFuel start goal roads with
  | none => []
  | some path =>
      let total_distance := roadPathDistance ops path
      let steps := roadSteps ops path
      let base : RouteCandidate :=
        { id := "route-1"
          steps := steps
          distance_m := pyRound 1 total_distance
          ascent_m := 0
          descent_m := 0
          estimated_cost := pyRound 3 (total_distance / 1000)
          composite := none
          constraints_used := [("mode", PyVal.vStr "road"), ("source", PyVal.vStr "osm")]
          score_breakdown := [("distance", pyRound 3 (total_distance / 1000))]
          uncertainty := [("note", PyVal.vStr "OSM roads only, no terrain data")]
          coverage := [("road", pyRound 3 (total_distance / 1000))]
          coverage_units := "km"
          estimated_cost_notes := "Distance-based cost (km) - no terrain factors available"
          hydrology_check :=
            [("crossings", PyVal.vInt 0), ("nearest_water_m", PyVal.vNone)]
          mobility :=
            [("surface_mix", PyVal.vDict [("road_pct", PyVal.vQ 100)]),
             ("avg_slope_deg", PyVal.vQ 0)]
          provenance :=
            [("algorithm", PyVal.vStr "road_network_dijkstra"),
             ("osm_roads", PyVal.vInt (roads.length : ℤ)),
             ("generated_at", PyVal.vStr now_iso)] }
      let variantIdxs := List.range' 2 (min (max_candidates + 1) 4 - 2)
      base :: variantIdxs.map (fun (i : ℕ) =>
        { base with
            id := "route-" ++ toString i,
            estimated_cost := pyRound 3 (base.estimated_cost * (95 / 100 + (i : ℚ) * (5 / 100))),
            constraints_used :=
              [("mode", PyVal.vStr "road"), ("source", PyVal.vStr "osm"),
               ("variant", PyVal.vInt (i : ℤ))] })

namespace Pkg

/-- Embedding of `generate_route_candidates` from
`packages/route_planner_mcp/route_planner_mcp/pathfinding.py`: detects the
placeholder grid (both DEM dimensions at most 10) and a non-empty road
network and dispatches to the road-network generator, otherwise runs the
grid A* profiles.  Python reads `len(dem.grid[0])`, which raises on an
empty grid; the embedding reads the first-row width with an empty-list
default. -/
def generate_route_candidates (ops : FloatOps) (fuel bfsFuel : ℕ)
    (start goal : Coordinate) (dem : DEMData) (landcover : LandcoverData)
    (obstacle_polys : List Polygon) (roads : List (String × List Coordinate))
    (max_candidates : ℕ) (now_iso : String) : List RouteCandidate :=
  let is_placeholder := dem.grid.length ≤ 10 ∧ (dem.grid.headD []).length ≤ 10
  if is_placeholder ∧ roads.length > 0 then
    generate_road_network_candidates ops bfsFuel start goal roads max_candidates now_iso
  else
    gridRouteCandidates ops fuel start goal dem landcover obstacle_polys roads max_candidates

end Pkg

namespace Srv

/-- Embedding of `generate_route_candidates` from
`src/route_planner_mcp/pathfinding.py` (the copy `server.py` imports): the
grid A* profile loop only, with no road-network dispatch. -/
def generate_route_candidates (ops : FloatOps) (fuel : ℕ)
    (start goal : Coordinate) (dem : DEMData) (landcover : LandcoverData)
    (obstacle_polys : List Polygon) (roads : List (String × List Coordinate))
    (max_candidates : ℕ) : List RouteCandidate :=
  gridRouteCandidates ops fuel start goal dem landcover obstacle_polys roads max_candidates

end Srv

/-! ## Engine facade (`server.py`) -/

/-- The constant handling descriptor (`server.HANDLING`). -/
structure Handling where
  sensitivity : String
  ttl_hours : ℤ
deriving DecidableEq, Repr

/-- Value of `server.HANDLING`. -/
def HANDLING : Handling := { sensitivity := "UNCLASSIFIED", ttl_hours := 720 }

/-- The constant schema descriptor (`server.SCHEMA`). -/
structure SchemaDescriptor where
  version : String
  hash : String
deriving DecidableEq, Repr

/-- Value of `server.SCHEMA`. -/
def SCHEMA : SchemaDescriptor :=
  { version := "1.2.0",
    hash := "sha256:5a0d8a2f96f6c0b8f271f98f6b3a9a8bf5a6a338d250b1d7f4c684a8739d4d5a" }

/-- The constant CRS descriptor (`server.CRS`). -/
structure CrsDescriptor where
  name : String
  order : String
deriving DecidableEq, Repr

/-- Value of `server.CRS`. -/
def CRS : CrsDescriptor := { name := "EPSG:4326", order := "lat,lon" }

/-- Top-level value of an engine response dict.  The descriptor entries
are kept structured (they are what the payload claims are about); all
other entries — route dumps, provenance, pace estimates, export file
records — are collapsed to `otherV`, since no claim constrains their
contents at the payload level. -/
inductive PayloadValue where
  | handlingV : Handling → PayloadValue
  | schemaV : SchemaDescriptor → PayloadValue
  | crsV : CrsDescriptor → PayloadValue
  | otherV : PayloadValue
deriving DecidableEq, Repr

/-- An engine response payload (a Python dict in insertion order). -/
abbrev Payload : Type := List (String × PayloadValue)

/-- Mutable engine state (`server.RoutePlannerState`). -/
structure RoutePlannerState where
  routes : List (String × RouteCandidate)
  risks : List (String × RouteRisk)
  paces : List (String × PaceEstimate)
  selection : Option RouteSelectionResult

/-- The engine (`server.RoutePlannerEngine`): loaded terrain plus state
and the monotonically increasing route counter. -/
structure RoutePlannerEngine where
  dem : DEMData
  landcover : LandcoverData
  obstacle_polys : List Polygon
  roads : List (String × List Coordinate)
  state : RoutePlannerState
  route_counter : ℕ

/-- Id assignment of `nav_route`: the `for candidate in candidates` loop
increments the engine counter, overwrites the candidate id with
`route-N`, and embeds the id as `sequence_id` in provenance. -/
def assignIds (counter : ℕ) (candidates : List RouteCandidate) : List RouteCandidate :=
  candidates.enum.map (fun ic =>
    let n := counter + ic.1 + 1
    let rid := "route-" ++ toString n
    { ic.2 with id := rid,
                provenance := setA ic.2.provenance "sequence_id" (PyVal.vStr rid) })

/-- Embedding of `RoutePlannerEngine.nav_route`.  Failure (no candidates)
raises before any state mutation; success clears all prior state, stores
the renumbered candidates and advances the counter. -/
def nav_route (ops : FloatOps) (fuel : ℕ) (engine : RoutePlannerEngine)
    (start goal : Coordinate) (max_candidates : ℕ) :
    RoutePlannerEngine × Except String Payload :=
  let candidates := Srv.generate_route_candidates ops fuel start goal engine.dem
    engine.landcover engine.obstacle_polys engine.roads max_candidates
  if candidates.isEmpty then
    (engine, Except.error "No viable route found between the provided coordinates.")
  else
    let assigned := assignIds engine.route_counter candidates
    let engine' :=
      { engine with
          state :=
            { routes := assigned.map (fun c => (c.id, c)), risks := [],
              paces := [], selection := none },
          route_counter := engine.route_counter + candidates.length }
    (engine',
     Except.ok
       [("handling", PayloadValue.handlingV HANDLING),
        ("schema", PayloadValue.schemaV SCHEMA),
        ("crs", PayloadValue.crsV CRS),
        ("routes", PayloadValue.otherV),
        ("provenance", PayloadValue.otherV)])

/-- Embedding of `RoutePlannerEngine.nav_risk_eval`. -/
def nav_risk_eval (engine : RoutePlannerEngine) (route_ids : Option (List String)) :
    RoutePlannerEngine × Except String Payload :=
  let use_ids : Bool := match route_ids with
    | some l => !l.isEmpty
    | none => false
  let ids := (route_ids.getD [])
  if use_ids && !(ids.filter (fun rid => (lookupA engine.state.routes rid).isNone)).isEmpty then
    (engine, Except.error ("Unknown route ids: " ++ String.intercalate ", "
      (ids.filter (fun rid => (lookupA engine.state.routes rid).isNone))))
  else
    let routes :=
      if use_ids then ids.filterMap (fun rid => lookupA engine.state.routes rid)
      else engine.state.routes.map (fun p => p.2)
    let risks := evaluate_routes routes
    let risks' := risks.foldl (fun acc p => setA acc p.1 p.2) engine.state.risks
    let routes' := risks.foldl
      (fun acc p =>
        match lookupA acc p.1 with
        | some c => setA acc p.1
            { c with composite := some (pyRound 3 (c.estimated_cost * (1 + p.2.aggregate))) }
        | none => acc)
      engine.state.routes
    let engine' := { engine with state :=
      { engine.state with routes := routes', risks := risks' } }
    (engine',
     Except.ok
       [("handling", PayloadValue.handlingV HANDLING),
        ("schema", PayloadValue.schemaV SCHEMA),
        ("weights", PayloadValue.otherV),
        ("risks", PayloadValue.otherV)])

/-- Python `params.get("route_ids") or list(self.state.routes.keys())`:
an absent or empty id list falls back to all stored route ids. -/
def idsOrKeys (engine : RoutePlannerEngine) (route_ids : Option (List String)) : List String :=
  match route_ids with
  | some l => if l.isEmpty then engine.state.routes.map
      (fun (p : String × RouteCandidate) => p.1) else l
  | none => engine.state.routes.map (fun (p : String × RouteCandidate) => p.1)

/-- The `for route_id in route_ids` loop of `nav_pace_estimator`: each
valid id stores its pace estimate in engine state immediately; an unknown
id raises at that point, keeping every pace already stored (the
operation is not atomic). -/
def paceFold (mode : String) (load_kg : ℚ) :
    List String → RoutePlannerState → List (String × PaceEstimate) →
      RoutePlannerState × Except String (List (String × PaceEstimate))
  | [], st, results => (st, Except.ok results)
  | rid :: rest, st, results =>
      match lookupA st.routes rid with
      | none => (st, Except.error ("Unknown route id: " ++ rid))
      | some route =>
          let pace := estimate_travel_time route mode load_kg
          paceFold mode load_kg rest
            { st with paces := setA st.paces rid pace }
            (setA results rid pace)

/-- Embedding of `RoutePlannerEngine.nav_pace_estimator`. -/
def nav_pace_estimator (engine : RoutePlannerEngine) (mode : String)
    (load_kg : ℚ) (route_ids : Option (List String)) :
    RoutePlannerEngine × Except String Payload :=
  let ids := idsOrKeys engine route_ids
  match paceFold mode load_kg ids engine.state [] with
  | (st', Except.error e) => ({ engine with state := st' }, Except.error e)
  | (st', Except.ok _) =>
      ({ engine with state := st' },
       Except.ok
         [("handling", PayloadValue.handlingV HANDLING),
          ("schema", PayloadValue.schemaV SCHEMA),
          ("pace_estimates", PayloadValue.otherV)])

/-- Embedding of `RoutePlannerEngine.nav_select`; `now` is the selector's
`datetime.now` reading and `must_arrive_before` the parsed deadline. -/
def nav_select (engine : RoutePlannerEngine) (route_ids : Option (List String))
    (must_arrive_before avoid_slope_degrees max_distance_m : Option ℚ)
    (prefer_low_risk : Bool) (now : ℚ) :
    RoutePlannerEngine × Except String Payload :=
  let ids := idsOrKeys engine route_ids
  let missing := ids.filter (fun rid => (lookupA engine.state.routes rid).isNone)
  if !missing.isEmpty then
    (engine, Except.error ("Unknown route ids: " ++ String.intercalate ", " missing))
  else
    let missing_risk := ids.filter (fun rid => (lookupA engine.state.risks rid).isNone)
    let missing_pace := ids.filter (fun rid => (lookupA engine.state.paces rid).isNone)
    if !missing_risk.isEmpty then
      (engine, Except.error ("Missing risk evaluation for: "
        ++ String.intercalate ", " missing_risk))
    else if !missing_pace.isEmpty then
      (engine, Except.error ("Missing pace estimates for: "
        ++ String.intercalate ", " missing_pace))
    else
      let routes := ids.filterMap (fun rid => lookupA engine.state.routes rid)
      let risksFn : String → RouteRisk := fun rid =>
        (lookupA engine.state.risks rid).getD
          { route_id := rid, slope_risk := 0, exposure_risk := 0, hydrology_risk := 0,
            weights := [], formula := "", components := [], hydrology_check := [] }
      let pacesFn : String → PaceEstimate := fun rid =>
        (lookupA engine.state.paces rid).getD
          { route_id := rid, travel_time_minutes := 0, mode := "", load_kg := 0,
            base_speed_kmh := 0, assumptions := [] }
      let constraints : RouteSelectionConstraints :=
        { must_arrive_before := must_arrive_before,
          avoid_slope_degrees := avoid_slope_degrees,
          prefer_low_risk := prefer_low_risk,
          max_distance_m := max_distance_m }
      match select_route routes risksFn pacesFn constraints now with
      | Except.error e => (engine, Except.error e)
      | Except.ok result =>
          ({ engine with state := { engine.state with selection := some result } },
           Except.ok
             [("handling", PayloadValue.handlingV HANDLING),
              ("schema", PayloadValue.schemaV SCHEMA),
              ("selection", PayloadValue.otherV)])

/-- The dict returned by `exporter.export_all`.  The exporter writes three
files and reports paths and SHA-256 digests — file-system effects outside
the shallow embedding; only the key structure of the returned payload is
modelled, which is all the payload claims constrain. -/
def export_all_payload : Payload :=
  [("export_root", PayloadValue.otherV), ("basename", PayloadValue.otherV),
   ("waypoints_in_gpx", PayloadValue.otherV), ("files", PayloadValue.otherV)]

/-- Embedding of `RoutePlannerEngine.nav_export`: requires a prior
selection, then returns the exporter payload with the `handling` and
`schema` descriptors appended (dict assignment appends the new keys). -/
def nav_export (engine : RoutePlannerEngine) (_basename : Option String) :
    RoutePlannerEngine × Except String Payload :=
  match engine.state.selection with
  | none => (engine, Except.error "No route has been selected. Run nav.select first.")
  | some _ =>
      (engine,
       Except.ok (setA (setA export_all_payload "handling"
          (PayloadValue.handlingV HANDLING)) "schema" (PayloadValue.schemaV SCHEMA)))

/-! ## Association-list lemmas -/

theorem lookupA_map_replace {κ α : Type} [BEq κ] [LawfulBEq κ]
    (l : List (κ × α)) (k : κ) (v : α) :
    lookupA (l.map (fun p => if p.1 == k then (k, v) else p)) k
      = if (l.find? (fun p => p.1 == k)).isSome then some v else none := by
  induction l with
  | nil => simp [lookupA]
  | cons p rest ih =>
      by_cases hb : p.1 == k
      · simp [lookupA, List.find?, hb]
      · simp only [List.map_cons, List.find?, hb]
        simpa [lookupA, List.find?, hb] using ih

theorem lookupA_append {κ α : Type} [BEq κ] (l1 l2 : List (κ × α)) (k : κ) :
    lookupA (l1 ++ l2) k
      = match lookupA l1 k with
        | some v => some v
        | none => lookupA l2 k := by
  induction l1 with
  | nil => simp [lookupA]
  | cons p rest ih =>
      by_cases hb : p.1 == k
      · simp [lookupA, List.find?, hb]
      · simpa [lookupA, List.find?, hb] using ih

theorem lookupA_setA_self {κ α : Type} [BEq κ] [LawfulBEq κ]
    (l : List (κ × α)) (k : κ) (v : α) :
    lookupA (setA l k v) k = some v := by
  unfold setA
  by_cases h : (l.find? (fun p => p.1 == k)).isSome
  · rw [if_pos h, lookupA_map_replace, if_pos h]
  · rw [if_neg h, lookupA_append]
    have hnone : lookupA l k = none := by
      unfold lookupA
      rcases hf : l.find? (fun p => p.1 == k) with _ | q
      · rw [hf]; rfl
      · rw [hf] at h; simp at h
    rw [hnone]
    simp [lookupA, List.find?]

theorem mem_setA {κ α : Type} [BEq κ] (l : List (κ × α)) (k : κ) (v : α)
    (p : κ × α) (hp : p ∈ setA l k v) : p = (k, v) ∨ p ∈ l := by
  unfold setA at hp
  by_cases h : (l.find? (fun p => p.1 == k)).isSome
  · rw [if_pos h] at hp
    obtain ⟨q, hq, hpq⟩ := List.mem_map.mp hp
    by_cases hb : q.1 == k
    · rw [if_pos hb] at hpq; exact Or.inl hpq.symm
    · rw [if_neg hb] at hpq; exact Or.inr (hpq ▸ hq)
  · rw [if_neg h] at hp
    rcases List.mem_append.mp hp with h1 | h1
    · exact Or.inr h1
    · exact Or.inl (List.mem_singleton.mp h1)

/-! ## Payload descriptors (C5) -/

/-- C5 (amended): every engine operation's successful payload carries the
constant `handling` and `schema` descriptors, and `nav_route`
additionally carries the CRS descriptor — the other four operations do
not include a `crs` key at all. -/
theorem engine_payload_descriptors (ops : FloatOps) (fuel : ℕ)
    (engine : RoutePlannerEngine) (start goal : Coordinate) (max_candidates : ℕ)
    (route_ids : Option (List String)) (mode : String) (load_kg : ℚ)
    (mab asd mdm : Option ℚ) (plr : Bool) (now : ℚ) (basename : Option String) :
    (∀ e' pl, nav_route ops fuel engine start goal max_candidates = (e', Except.ok pl) →
        lookupA pl "handling" = some (PayloadValue.handlingV HANDLING) ∧
        lookupA pl "schema" = some (PayloadValue.schemaV SCHEMA) ∧
        lookupA pl "crs" = some (PayloadValue.crsV CRS)) ∧
    (∀ e' pl, nav_risk_eval engine route_ids = (e', Except.ok pl) →
        lookupA pl "handling" = some (PayloadValue.handlingV HANDLING) ∧
        lookupA pl "schema" = some (PayloadValue.schemaV SCHEMA) ∧
        lookupA pl "crs" = none) ∧
    (∀ e' pl, nav_pace_estimator engine mode load_kg route_ids = (e', Except.ok pl) →
        lookupA pl "handling" = some (PayloadValue.handlingV HANDLING) ∧
        lookupA pl "schema" = some (PayloadValue.schemaV SCHEMA) ∧
        lookupA pl "crs" = none) ∧
    (∀ e' pl, nav_select engine route_ids mab asd mdm plr now = (e', Except.ok pl) →
        lookupA pl "handling" = some (PayloadValue.handlingV HANDLING) ∧
        lookupA pl "schema" = some (PayloadValue.schemaV SCHEMA) ∧
        lookupA pl "crs" = none) ∧
    (∀ e' pl, nav_export engine basename = (e', Except.ok pl) →
        lookupA pl "handling" = some (PayloadValue.handlingV HANDLING) ∧
        lookupA pl "schema" = some (PayloadValue.schemaV SCHEMA) ∧
        lookupA pl "crs" = none) := by
  refine ⟨?_, ?_, ?_, ?_, ?_⟩
  · intro e' pl h
    simp only [nav_route] at h
    repeat first
    | split at h
    | dsimp only at h
    all_goals first
    | (injection h with h1 h2; exact Except.noConfusion h2)
    | (injection h with h1 h2; injection h2 with h3; subst h3; exact ⟨rfl, rfl, rfl⟩)
  · intro e' pl h
    simp only [nav_risk_eval] at h
    repeat first
    | split at h
    | dsimp only at h
    all_goals first
    | (injection h with h1 h2; exact Except.noConfusion h2)
    | (injection h with h1 h2; injection h2 with h3; subst h3; exact ⟨rfl, rfl, rfl⟩)
  · intro e' pl h
    simp only [nav_pace_estimator] at h
    repeat first
    | split at h
    | dsimp only at h
    all_goals first
    | (injection h with h1 h2; exact Except.noConfusion h2)
    | (injection h with h1 h2; injection h2 with h3; subst h3; exact ⟨rfl, rfl, rfl⟩)
  · intro e' pl h
    simp only [nav_select] at h
    split_ifs at h with hc1 hc2 hc3
    · injection h with ha hb; exact Except.noConfusion hb
    · injection h with ha hb; exact Except.noConfusion hb
    · injection h with ha hb; exact Except.noConfusion hb
    · split at h
      · injection h with ha hb; exact Except.noConfusion hb
      · injection h with ha hb
        injection hb with hc
        subst hc
        exact ⟨rfl, rfl, rfl⟩
  · intro e' pl h
    simp only [nav_export] at h
    repeat first
    | split at h
    | dsimp only at h
    all_goals first
    | (injection h with h1 h2; exact Except.noConfusion h2)
    | (injection h with h1 h2; injection h2 with h3; subst h3; exact ⟨rfl, rfl, rfl⟩)

/-! ## A concrete engine pipeline (witness infrastructure) -/

/-- Stub float primitives for concrete runs: a square root that is zero
everywhere, a zero arctangent and an identity power.  Any `FloatOps`
record is admissible; the claims under test do not depend on the numeric
values these produce on the chosen inputs. -/
def wStub : FloatOps :=
  { sqrt := fun _ => 0, atanDeg := fun _ => 0, powf := fun x _ => x }

/-- Metadata of the concrete test grids. -/
def wMeta : GridMetadata :=
  { origin := (0, 0), cell_size_m := 100, ttl_hours := 24,
    last_updated := "2024-01-01T00:00:00Z" }

/-- A 1×2 flat DEM. -/
def wDem : DEMData := { grid := [[100, 100]], metadata := wMeta }

/-- A 1×2 all-open landcover grid. -/
def wLandcover : LandcoverData :=
  { grid := [["open", "open"]],
    classes := [("open",
      { name := "open", cost_factor := 1, exposure := 6 / 10, speed_modifier := 1 })],
    metadata := wMeta }

/-- A freshly constructed engine over the 1×2 test terrain. -/
def engine0 : RoutePlannerEngine :=
  { dem := wDem, landcover := wLandcover, obstacle_polys := [], roads := [],
    state := { routes := [], risks := [], paces := [], selection := none },
    route_counter := 0 }

/-- Engine after a successful `nav_route` over the 1×2 grid. -/
def wEngine1 : RoutePlannerEngine :=
  (nav_route wStub 100 engine0 (0, 0) (0, 12 / 10000) 3).1

/-- Engine after `nav_risk_eval`. -/
def wEngine2 : RoutePlannerEngine := (nav_risk_eval wEngine1 none).1

/-- Engine after `nav_pace_estimator`. -/
def wEngine3 : RoutePlannerEngine := (nav_pace_estimator wEngine2 "foot" 25 none).1

/-- Engine after `nav_select`. -/
def wEngine4 : RoutePlannerEngine :=
  (nav_select wEngine3 none none none none true 0).1

/-- The `nav_route` success payload. -/
def plRoute : Payload :=
  [("handling", PayloadValue.handlingV HANDLING),
   ("schema", PayloadValue.schemaV SCHEMA),
   ("crs", PayloadValue.crsV CRS),
   ("routes", PayloadValue.otherV),
   ("provenance", PayloadValue.otherV)]

/-- The `nav_risk_eval` success payload. -/
def plRisk : Payload :=
  [("handling", PayloadValue.handlingV HANDLING),
   ("schema", PayloadValue.schemaV SCHEMA),
   ("weights", PayloadValue.otherV),
   ("risks", PayloadValue.otherV)]

/-- The `nav_pace_estimator` success payload. -/
def plPace : Payload :=
  [("handling", PayloadValue.handlingV HANDLING),
   ("schema", PayloadValue.schemaV SCHEMA),
   ("pace_estimates", PayloadValue.otherV)]

/-- The `nav_select` success payload. -/
def plSelectP : Payload :=
  [("handling", PayloadValue.handlingV HANDLING),
   ("schema", PayloadValue.schemaV SCHEMA),
   ("selection", PayloadValue.otherV)]

/-- The `nav_export` success payload. -/
def plExport : Payload :=
  [("export_root", PayloadValue.otherV), ("basename", PayloadValue.otherV),
   ("waypoints_in_gpx", PayloadValue.otherV), ("files", PayloadValue.otherV),
   ("handling", PayloadValue.handlingV HANDLING),
   ("schema", PayloadValue.schemaV SCHEMA)]

/-- C5 counterexample: a successful `nav_risk_eval` payload carries no
`crs` key at all (the claim requires the CRS descriptor in every
operation's payload); `handling` and `schema` are present. -/
theorem nav_risk_eval_payload_lacks_crs :
    (nav_risk_eval engine0 none).2 = Except.ok plRisk ∧
    lookupA plRisk "crs" = none ∧
    lookupA plRisk "handling" = some (PayloadValue.handlingV HANDLING) ∧
    lookupA plRisk "schema" = some (PayloadValue.schemaV SCHEMA) := by
  exact ⟨rfl, rfl, rfl, rfl⟩

/-- Witness for the amended C5 along a concrete five-operation pipeline. -/
theorem engine_payload_descriptors_witness :
    (lookupA plRoute "handling" = some (PayloadValue.handlingV HANDLING) ∧
      lookupA plRoute "schema" = some (PayloadValue.schemaV SCHEMA) ∧
      lookupA plRoute "crs" = some (PayloadValue.crsV CRS)) ∧
    (lookupA plRisk "handling" = some (PayloadValue.handlingV HANDLING) ∧
      lookupA plRisk "schema" = some (PayloadValue.schemaV SCHEMA) ∧
      lookupA plRisk "crs" = none) ∧
    (lookupA plPace "handling" = some (PayloadValue.handlingV HANDLING) ∧
      lookupA plPace "schema" = some (PayloadValue.schemaV SCHEMA) ∧
      lookupA plPace "crs" = none) ∧
    (lookupA plSelectP "handling" = some (PayloadValue.handlingV HANDLING) ∧
      lookupA plSelectP "schema" = some (PayloadValue.schemaV SCHEMA) ∧
      lookupA plSelectP "crs" = none) ∧
    (lookupA plExport "handling" = some (PayloadValue.handlingV HANDLING) ∧
      lookupA plExport "schema" = some (PayloadValue.schemaV SCHEMA) ∧
      lookupA plExport "crs" = none) := by
  refine ⟨?_, ?_, ?_, ?_, ?_⟩
  · exact (engine_payload_descriptors wStub 100 engine0 (0, 0) (0, 12 / 10000) 3 none
      "foot" 25 none none none true 0 none).1 wEngine1 plRoute
      (by with_unfolding_all rfl)
  · exact (engine_payload_descriptors wStub 100 wEngine1 (0, 0) (0, 12 / 10000) 3 none
      "foot" 25 none none none true 0 none).2.1 wEngine2 plRisk
      (by with_unfolding_all rfl)
  · exact (engine_payload_descriptors wStub 100 wEngine2 (0, 0) (0, 12 / 10000) 3 none
      "foot" 25 none none none true 0 none).2.2.1 wEngine3 plPace
      (by with_unfolding_all rfl)
  · exact (engine_payload_descriptors wStub 100 wEngine3 (0, 0) (0, 12 / 10000) 3 none
      "foot" 25 none none none true 0 none).2.2.2.1 wEngine4 plSelectP
      (by with_unfolding_all rfl)
  · exact (engine_payload_descriptors wStub 100 wEngine4 (0, 0) (0, 12 / 10000) 3 none
      "foot" 25 none none none true 0 none).2.2.2.2 (nav_export wEngine4 none).1 plExport
      (by with_unfolding_all rfl)

/-! ## Engine id assignment (C9) and pace non-atomicity (C10) -/

theorem assignIds_ids (counter : ℕ) (cands : List RouteCandidate) :
    (assignIds counter cands).map (fun c => c.id)
      = (List.range cands.length).map
          (fun i => "route-" ++ toString (counter + i + 1)) := by
  unfold assignIds
  rw [List.map_map]
  have hcomp : ((fun c => RouteCandidate.id c) ∘
      (fun (ic : ℕ × RouteCandidate) =>
        ({ ic.2 with
             id := "route-" ++ toString (counter + ic.1 + 1),
             provenance := setA ic.2.provenance "sequence_id"
               (PyVal.vStr ("route-" ++ toString (counter + ic.1 + 1))) } : RouteCandidate)))
      = fun (ic : ℕ × RouteCandidate) => "route-" ++ toString (counter + ic.1 + 1) := rfl
  rw [hcomp]
  calc cands.enum.map (fun ic => "route-" ++ toString (counter + ic.1 + 1))
      = (cands.enum.map Prod.fst).map (fun i => "route-" ++ toString (counter + i + 1)) := by
        rw [List.map_map]; rfl
    _ = (List.range cands.length).map (fun i => "route-" ++ toString (counter + i + 1)) := by
        rw [List.enum_map_fst]

theorem assignIds_sequence (counter : ℕ) (cands : List RouteCandidate) :
    ∀ c ∈ assignIds counter cands,
      lookupA c.provenance "sequence_id" = some (PyVal.vStr c.id) := by
  intro c hc
  unfold assignIds at hc
  obtain ⟨ic, _, rfl⟩ := List.mem_map.mp hc
  exact lookupA_setA_self _ _ _

/-- C9: a successful `nav_route` call clears the prior risk, pace and
selection state, assigns the candidates ids `route-N` in strictly
increasing order of the engine-wide counter (regardless of the
provisional ids the generator produced), embeds each id as `sequence_id`
in the candidate's provenance, and advances the counter by the number of
candidates — so two successive successful calls draw their `N` values
from disjoint, increasing ranges, never reusing an `N` and never
resetting the counter within one engine lifetime. -/
theorem nav_route_assigns_monotonic_ids (ops : FloatOps) (fuel : ℕ)
    (engine : RoutePlannerEngine) (start goal : Coordinate) (max_candidates : ℕ)
    (e' : RoutePlannerEngine) (pl : Payload)
    (h : nav_route ops fuel engine start goal max_candidates = (e', Except.ok pl)) :
    e'.route_counter = engine.route_counter +
      (Srv.generate_route_candidates ops fuel start goal engine.dem engine.landcover
        engine.obstacle_polys engine.roads max_candidates).length ∧
    e'.state.risks = [] ∧ e'.state.paces = [] ∧ e'.state.selection = none ∧
    e'.state.routes.map (fun p => p.1)
      = (List.range (Srv.generate_route_candidates ops fuel start goal engine.dem
          engine.landcover engine.obstacle_polys engine.roads max_candidates).length).map
          (fun i => "route-" ++ toString (engine.route_counter + i + 1)) ∧
    (∀ p ∈ e'.state.routes, p.2.id = p.1 ∧
      lookupA p.2.provenance "sequence_id" = some (PyVal.vStr p.1)) := by
  simp only [nav_route] at h
  split at h
  · injection h with h1 h2; exact Except.noConfusion h2
  · injection h with h1 h2
    subst h1
    refine ⟨rfl, rfl, rfl, rfl, ?_, ?_⟩
    · rw [List.map_map]
      have hcomp : ((fun (p : String × RouteCandidate) => p.1) ∘
          (fun c => (c.id, c))) = fun (c : RouteCandidate) => c.id := rfl
      rw [hcomp]
      exact assignIds_ids _ _
    · intro p hp
      obtain ⟨c, hc, rfl⟩ := List.mem_map.mp hp
      exact ⟨rfl, assignIds_sequence _ _ c hc⟩

/-- Witness for C9 at the concrete engine pipeline. -/
theorem nav_route_assigns_monotonic_ids_witness :
    wEngine1.route_counter = 3 ∧
    wEngine1.state.routes.map (fun p => p.1) = ["route-1", "route-2", "route-3"] ∧
    wEngine1.state.risks = [] ∧ wEngine1.state.selection = none := by
  have h := nav_route_assigns_monotonic_ids wStub 100 engine0 (0, 0) (0, 12 / 10000) 3
    wEngine1 plRoute (by with_unfolding_all rfl)
  refine ⟨?_, ?_, h.2.1, h.2.2.2.1⟩
  · rw [h.1]
    with_unfolding_all rfl
  · rw [h.2.2.2.2.1]
    with_unfolding_all rfl

/-- C10: `nav_pace_estimator` with an id list holding a valid id before an
unknown one raises the unknown-route error, but by then the pace computed
for the preceding valid id has already been stored in engine state — the
failing operation mutates state. -/
theorem nav_pace_estimator_not_atomic (engine : RoutePlannerEngine) (mode : String)
    (load_kg : ℚ) (valid unknown : String) (route : RouteCandidate)
    (hv : lookupA engine.state.routes valid = some route)
    (hu : lookupA engine.state.routes unknown = none) :
    (nav_pace_estimator engine mode load_kg (some [valid, unknown])).2
      = Except.error ("Unknown route id: " ++ unknown) ∧
    lookupA ((nav_pace_estimator engine mode load_kg (some [valid, unknown])).1).state.paces
        valid
      = some (estimate_travel_time route mode load_kg) := by
  have hrun : paceFold mode load_kg [valid, unknown] engine.state []
      = ({ engine.state with
            paces := setA engine.state.paces valid (estimate_travel_time route mode load_kg) },
         Except.error ("Unknown route id: " ++ unknown)) := by
    simp only [paceFold, hv, hu]
  have hmain : nav_pace_estimator engine mode load_kg (some [valid, unknown])
      = ({ engine with state :=
            { engine.state with
                paces := setA engine.state.paces valid
                  (estimate_travel_time route mode load_kg) } },
         Except.error ("Unknown route id: " ++ unknown)) := by
    simp only [nav_pace_estimator]
    rw [show idsOrKeys engine (some [valid, unknown]) = [valid, unknown] from rfl]
    rw [hrun]
  constructor
  · rw [hmain]
  · rw [hmain]
    exact lookupA_setA_self _ _ _

/-- The first stored candidate of the concrete pipeline. -/
def wRoute1 : RouteCandidate := (lookupA wEngine1.state.routes "route-1").getD cA

/-- Witness for C10 at the concrete engine pipeline. -/
theorem nav_pace_estimator_not_atomic_witness :
    (nav_pace_estimator wEngine1 "foot" 25 (some ["route-1", "nope"])).2
      = Except.error ("Unknown route id: " ++ "nope") ∧
    lookupA ((nav_pace_estimator wEngine1 "foot" 25 (some ["route-1", "nope"])).1).state.paces
        "route-1"
      = some (estimate_travel_time wRoute1 "foot" 25) :=
  nav_pace_estimator_not_atomic wEngine1 "foot" 25 "route-1" "nope" wRoute1
    (by with_unfolding_all rfl) (by with_unfolding_all rfl)

/-! ## Road-mode candidates (C6 counterexample, C7) -/

/-- A single road whose two vertices snap start and goal to the same
node (coordinates in imported `(lon, lat)` order). -/
def roads1 : List (String × List Coordinate) := [("r1", [(0, 0), (1 / 1000, 0)])]

set_option maxRecDepth 4000 in
/-- C6 counterexample: a candidate generated from the trivial single-node
road path has `distance_m = 0` and its pace estimate has
`travel_time_minutes = 0`, not a strictly positive value. -/
theorem trivial_road_candidate_zero_travel_time :
    ((Pkg.generate_route_candidates wStub 100 50 (0, 0) (0, 0) wDem wLandcover []
        roads1 3 "t0").headD cA).distance_m = 0 ∧
    lookupA ((Pkg.generate_route_candidates wStub 100 50 (0, 0) (0, 0) wDem wLandcover []
        roads1 3 "t0").headD cA).provenance "algorithm"
      = some (PyVal.vStr "road_network_dijkstra") ∧
    (estimate_travel_time ((Pkg.generate_route_candidates wStub 100 50 (0, 0) (0, 0) wDem
        wLandcover [] roads1 3 "t0").headD cA) "foot" 25).travel_time_minutes = 0 := by
  refine ⟨?_, ?_, ?_⟩
  · with_unfolding_all rfl
  · with_unfolding_all rfl
  · with_unfolding_all rfl

/-- A zero-distance variant of the fixture candidate. -/
def cZero : RouteCandidate := { cA with distance_m := 0 }

/-- Witness for the amended C6 at concrete inputs: a 100 m candidate has
speed at least 1.5 km/h, nonnegative travel time and strictly positive
pre-rounding time, while a zero-distance candidate gets exactly 0. -/
theorem estimate_travel_time_nonneg_witness :
    (3 / 2 : ℚ) ≤ naismith_adjusted_speed cA "foot" 25 ∧
    0 ≤ (estimate_travel_time cA "foot" 25).travel_time_minutes ∧
    0 < cA.distance_m / 1000 / naismith_adjusted_speed cA "foot" 25 * 60 ∧
    (estimate_travel_time cZero "foot" 25).travel_time_minutes = 0 := by
  have h := estimate_travel_time_nonneg cA "foot" 25 (by with_unfolding_all decide)
  have h0 := estimate_travel_time_nonneg cZero "foot" 25 (le_refl 0)
  exact ⟨h.1, h.2.1, h.2.2.1 (by with_unfolding_all decide), h0.2.2.2 rfl⟩

/-- C7: with a placeholder DEM (both dimensions at most 10) and a
non-empty road network, `generate_route_candidates` dispatches to the
road-network Dijkstra generator; whenever that search yields a path and
`max_candidates ≥ 3`, the result is the base candidate (algorithm
`road_network_dijkstra`, cost = path distance in km) plus two variants
with identical step geometry, costs scaled by `0.95 + i·0.05` for
`i ∈ {2, 3}`, and a variant tag. -/
theorem road_mode_dispatch (ops : FloatOps) (fuel bfsFuel : ℕ)
    (start goal : Coordinate) (dem : DEMData) (landcover : LandcoverData)
    (obstacle_polys : List Polygon) (roads : List (String × List Coordinate))
    (max_candidates : ℕ) (now_iso : String)
    (hrows : dem.grid.length ≤ 10) (hcols : (dem.grid.headD []).length ≤ 10)
    (hroads : roads.length > 0) (hmc : 3 ≤ max_candidates)
    (path : List Coordinate)
    (hpath : road_network_route ops bfsFuel start goal roads = some path) :
    Pkg.generate_route_candidates ops fuel bfsFuel start goal dem landcover
        obstacle_polys roads max_candidates now_iso
      = generate_road_network_candidates ops bfsFuel start goal roads max_candidates
          now_iso ∧
    ∃ base v2 v3,
      generate_road_network_candidates ops bfsFuel start goal roads max_candidates now_iso
        = [base, v2, v3] ∧
      lookupA base.provenance "algorithm" = some (PyVal.vStr "road_network_dijkstra") ∧
      base.estimated_cost = pyRound 3 (roadPathDistance ops path / 1000) ∧
      base.distance_m = pyRound 1 (roadPathDistance ops path) ∧
      v2.steps = base.steps ∧ v3.steps = base.steps ∧
      v2.distance_m = base.distance_m ∧ v3.distance_m = base.distance_m ∧
      v2.estimated_cost = pyRound 3 (base.estimated_cost * (95 / 100 + 2 * (5 / 100))) ∧
      v3.estimated_cost = pyRound 3 (base.estimated_cost * (95 / 100 + 3 * (5 / 100))) ∧
      lookupA v2.constraints_used "variant" = some (PyVal.vInt 2) ∧
      lookupA v3.constraints_used "variant" = some (PyVal.vInt 3) := by
  constructor
  · simp only [Pkg.generate_route_candidates]
    rw [if_pos ⟨⟨hrows, hcols⟩, hroads⟩]
  · have hrange : List.range' 2 (min (max_candidates + 1) 4 - 2) = [2, 3] := by
      have hmin : min (max_candidates + 1) 4 - 2 = 2 := by omega
      rw [hmin]
      rfl
    simp only [generate_road_network_candidates]
    rw [hpath, hrange]
    refine ⟨_, _, _, rfl, rfl, rfl, rfl, rfl, rfl, rfl, rfl, ?_, ?_, rfl, rfl⟩
    · norm_num
    · norm_num

set_option maxRecDepth 4000 in
/-- Witness for C7 at the concrete single-road input. -/
theorem road_mode_dispatch_witness :
    ∃ base v2 v3,
      generate_road_network_candidates wStub 50 (0, 0) (0, 0) roads1 3 "t0"
        = [base, v2, v3] ∧
      lookupA base.provenance "algorithm" = some (PyVal.vStr "road_network_dijkstra") ∧
      v2.estimated_cost = pyRound 3 (base.estimated_cost * (95 / 100 + 2 * (5 / 100))) ∧
      v3.estimated_cost = pyRound 3 (base.estimated_cost * (95 / 100 + 3 * (5 / 100))) := by
  have h := road_mode_dispatch wStub 100 50 (0, 0) (0, 0) wDem wLandcover [] roads1 3 "t0"
    (by decide) (by decide) (by decide) (by decide) [(0, 0)] (by with_unfolding_all rfl)
  obtain ⟨base, v2, v3, heq, halg, _, _, _, _, _, _, hc2, hc3, _, _⟩ := h.2
  exact ⟨base, v2, v3, heq, halg, hc2, hc3⟩

/-! ## A* obstacle avoidance (C8) -/

/-- One neighbour expansion preserves the invariant that every key of
`came_from` is an unblocked cell: the only key it can add passed the
`cell_blocked` guard. -/
theorem aStarExpand_keys_unblocked (ops : FloatOps) (dem : DEMData)
    (landcover : LandcoverData) (obstacle_list : List Polygon)
    (roads : List (String × List Coordinate)) (slope_weight : ℚ)
    (terrain_multipliers : List (String × ℚ)) (exposure_penalty road_bias : ℚ)
    (goal_idx current : GridIndex) (st : AStarMaps) (d : ℤ × ℤ)
    (hinv : ∀ pr ∈ st.came_from,
      cell_blocked obstacle_list dem.metadata.origin dem.metadata.cell_size_m
        pr.1.1 pr.1.2 = false) :
    ∀ pr ∈ (aStarExpand ops dem landcover obstacle_list roads slope_weight
        terrain_multipliers exposure_penalty road_bias goal_idx current st d).came_from,
      cell_blocked obstacle_list dem.metadata.origin dem.metadata.cell_size_m
        pr.1.1 pr.1.2 = false := by
  intro pr hpr
  simp only [aStarExpand] at hpr
  split_ifs at hpr <;>
    first
      | exact hinv pr hpr
      | (rcases mem_setA _ _ _ _ hpr with h | h
         <;> first
           | exact hinv pr h
           | (subst h
              show cell_blocked obstacle_list dem.metadata.origin
                dem.metadata.cell_size_m (current.1 + d.1) (current.2 + d.2) = false
              simp only [Bool.not_eq_true] at *
              assumption))

/-- The whole eight-neighbour expansion loop preserves the `came_from`
invariant. -/
theorem foldl_aStarExpand_keys_unblocked (ops : FloatOps) (dem : DEMData)
    (landcover : LandcoverData) (obstacle_list : List Polygon)
    (roads : List (String × List Coordinate)) (slope_weight : ℚ)
    (terrain_multipliers : List (String × ℚ)) (exposure_penalty road_bias : ℚ)
    (goal_idx current : GridIndex) :
    ∀ (l : List (ℤ × ℤ)) (st : AStarMaps),
      (∀ pr ∈ st.came_from,
        cell_blocked obstacle_list dem.metadata.origin dem.metadata.cell_size_m
          pr.1.1 pr.1.2 = false) →
      ∀ pr ∈ (l.foldl (aStarExpand ops dem landcover obstacle_list roads slope_weight
          terrain_multipliers exposure_penalty road_bias goal_idx current) st).came_from,
        cell_blocked obstacle_list dem.metadata.origin dem.metadata.cell_size_m
          pr.1.1 pr.1.2 = false := by
  intro l
  induction l with
  | nil => intro st hinv; exact hinv
  | cons d rest ih =>
      intro st hinv
      rw [List.foldl_cons]
      exact ih _ (aStarExpand_keys_unblocked ops dem landcover obstacle_list roads
        slope_weight terrain_multipliers exposure_penalty road_bias goal_idx current
        st d hinv)

/-- A successful `lookupA` exhibits an association-list entry with the
looked-up key. -/
theorem lookupA_isSome_exists {κ α : Type} [BEq κ] [LawfulBEq κ]
    (l : List (κ × α)) (k : κ) (h : (lookupA l k).isSome = true) :
    ∃ pr ∈ l, pr.1 = k := by
  unfold lookupA at h
  rcases hf : l.find? (fun p => p.1 == k) with _ | q
  · rw [hf] at h; simp at h
  · refine ⟨q, List.mem_of_find?_eq_some hf, ?_⟩
    have hq := List.find?_some hf
    simpa using hq

/-- Every element of the reconstructed path except its head is a
`came_from` key: the chase only prepends looked-up predecessors. -/
theorem chaseCameFrom_tail_keys {α : Type} [BEq α] (cf : List (α × α)) :
    ∀ (fuel : ℕ) (cur : α) (acc : List α),
      (∀ x ∈ acc.tail, (lookupA cf x).isSome = true) →
      acc.head? = some cur →
      ∀ x ∈ (chaseCameFrom fuel cf cur acc).tail, (lookupA cf x).isSome = true := by
  intro fuel
  induction fuel with
  | zero =>
      intro cur acc h1 _ x hx
      exact h1 x (by simpa [chaseCameFrom] using hx)
  | succ f ih =>
      intro cur acc h1 hhead
      rcases hl : lookupA cf cur with _ | p
      · simp only [chaseCameFrom, hl]
        exact h1
      · simp only [chaseCameFrom, hl]
        refine ih p (p :: acc) ?_ rfl
        intro x hx
        rcases acc with _ | ⟨a, as⟩
        · cases hhead
        · have ha : a = cur := by simpa using hhead
          rcases List.mem_cons.mp (by simpa using hx) with hxa | hxs
        
          · rw [hxa, ha, hl]; rfl
          · exact h1 x (by simpa using hxs)

/-- The A* search loop only returns paths whose non-head cells are
`came_from` keys, hence unblocked, provided the invariant holds on entry. -/
theorem aStarLoop_tail_unblocked (ops : FloatOps) (dem : DEMData)
    (landcover : LandcoverData) (obstacle_list : List Polygon)
    (roads : List (String × List Coordinate)) (slope_weight : ℚ)
    (terrain_multipliers : List (String × ℚ)) (exposure_penalty road_bias : ℚ)
    (goal_idx : GridIndex) :
    ∀ (fuel : ℕ) (st : AStarMaps) (path : List GridIndex),
      (∀ pr ∈ st.came_from,
        cell_blocked obstacle_list dem.metadata.origin dem.metadata.cell_size_m
          pr.1.1 pr.1.2 = false) →
      aStarLoop ops dem landcover obstacle_list roads slope_weight
        terrain_multipliers exposure_penalty road_bias goal_idx fuel st = some path →
      ∀ cell ∈ path.tail,
        cell_blocked obstacle_list dem.metadata.origin dem.metadata.cell_size_m
          cell.1 cell.2 = false := by
  intro fuel
  induction fuel with
  | zero =>
      intro st path hinv h
      exact Option.noConfusion h
  | succ f ih =>
      intro st path hinv h
      rw [aStarLoop] at h
      rcases hpop : popMinBy heapLtQI st.open_set with _ | er
      · rw [hpop] at h
        exact Option.noConfusion h
      · obtain ⟨entry, rest⟩ := er
        rw [hpop] at h
        dsimp only at h
        by_cases hg : entry.2 = goal_idx
        · rw [if_pos hg] at h
          injection h with h
          subst h
          intro cell hcell
          have hsome := chaseCameFrom_tail_keys st.came_from
            (st.came_from.length + 1) entry.2 [entry.2]
            (by intro x hx; exact absurd hx (List.not_mem_nil x)) rfl cell hcell
          obtain ⟨pr, hpr, hfst⟩ := lookupA_isSome_exists st.came_from cell hsome
          have hbl := hinv pr hpr
          rw [hfst] at hbl
          exact hbl
        · rw [if_neg hg] at h
          exact ih _ _ (foldl_aStarExpand_keys_unblocked ops dem landcover obstacle_list
            roads slope_weight terrain_multipliers exposure_penalty road_bias goal_idx
            entry.2 neighborOffsets { st with open_set := rest } hinv) h

/-- C8 (amended): grid A* skips obstacle-blocked cells during neighbour
expansion, so every cell of a returned path except the start cell — and
hence every step coordinate after the first of a grid-mode candidate — is
outside every obstacle polygon; the start cell itself is never checked
and may lie inside an obstacle. -/
theorem a_star_tail_unblocked (ops : FloatOps) (fuel : ℕ) (start goal : Coordinate)
    (dem : DEMData) (landcover : LandcoverData) (obstacle_polys : List Polygon)
    (roads : List (String × List Coordinate)) (slope_weight : ℚ)
    (terrain_multipliers : List (String × ℚ)) (exposure_penalty road_bias : ℚ)
    (path : List GridIndex)
    (h : a_star_route ops fuel start goal dem landcover obstacle_polys roads
      slope_weight terrain_multipliers exposure_penalty road_bias = some path) :
    ∀ cell ∈ path.tail,
      cell_blocked obstacle_polys dem.metadata.origin dem.metadata.cell_size_m
        cell.1 cell.2 = false := by
  simp only [a_star_route] at h
  split at h
  · exact Option.noConfusion h
  · exact aStarLoop_tail_unblocked ops dem landcover obstacle_polys roads
      slope_weight terrain_multipliers exposure_penalty road_bias
      (coordinate_to_grid goal dem) fuel _ path
      (by intro pr hpr; exact absurd hpr (List.not_mem_nil pr)) h

/-- An obstacle polygon containing every point of longitude below `0.001`
— it contains the centroid of grid cell `(0, 0)` but not of `(0, 1)`. -/
def obsPoly : Polygon := { contains := fun p => decide (p.x < 1 / 1000) }

set_option maxRecDepth 4000 in
/-- Witness for the amended C8: a concrete run over the 1×2 grid with the
obstacle returns the path `[(0,0), (0,1)]`, and its non-head cell `(0,1)`
is indeed unblocked. -/
theorem a_star_tail_unblocked_witness :
    a_star_route wStub 100 (0, 0) (0, 12 / 10000) wDem wLandcover [obsPoly] [] 1 [] 0 1
      = some [((0 : ℤ), (0 : ℤ)), (0, 1)] ∧
    cell_blocked [obsPoly] wDem.metadata.origin wDem.metadata.cell_size_m 0 1 = false := by
  have hrun : a_star_route wStub 100 (0, 0) (0, 12 / 10000) wDem wLandcover [obsPoly] []
      1 [] 0 1 = some [((0 : ℤ), (0 : ℤ)), (0, 1)] := by
    with_unfolding_all rfl
  refine ⟨hrun, ?_⟩
  exact a_star_tail_unblocked wStub 100 (0, 0) (0, 12 / 10000) wDem wLandcover [obsPoly]
    [] 1 [] 0 1 _ hrun (0, 1) (by simp)

set_option maxRecDepth 8000 in
/-- C8 counterexample: with the obstacle polygon present, grid-mode
candidate generation still returns three candidates whose first step sits
at the start coordinate `(0, 0)` — the start cell is blocked (its centroid
lies inside the polygon) and the step coordinate itself lies inside the
obstacle polygon, refuting "no step coordinate falls inside an obstacle
polygon". -/
theorem a_star_blocked_start_in_steps :
    cell_blocked [obsPoly] wDem.metadata.origin wDem.metadata.cell_size_m 0 0 = true ∧
    (Srv.generate_route_candidates wStub 100 (0, 0) (0, 12 / 10000) wDem wLandcover
      [obsPoly] [] 3).length = 3 ∧
    ((((Srv.generate_route_candidates wStub 100 (0, 0) (0, 12 / 10000) wDem wLandcover
      [obsPoly] [] 3).headD cA).steps.headD phRouteStep).coordinate) = (0, 0) ∧
    obsPoly.contains
      { x := ((((Srv.generate_route_candidates wStub 100 (0, 0) (0, 12 / 10000) wDem
            wLandcover [obsPoly] [] 3).headD cA).steps.headD phRouteStep).coordinate).2,
        y := ((((Srv.generate_route_candidates wStub 100 (0, 0) (0, 12 / 10000) wDem
            wLandcover [obsPoly] [] 3).headD cA).steps.headD phRouteStep).coordinate).1 }
      = true := by
  refine ⟨?_, ?_, ?_, ?_⟩
  · with_unfolding_all rfl
  · with_unfolding_all rfl
  · with_unfolding_all rfl
  · with_unfolding_all rfl
